import Mathlib

/-!
Verification development for the AirDlivers chat-bot marketplace
(request lifecycle, matching state machine, moderation and suspension gate).

The JavaScript source is shallowly embedded: pure helpers become Lean
functions, the Mongo-backed record store becomes association lists of
records, and each event handler becomes a state-transforming function
returning the new store plus the reply it answers.  Numbers that the
source handles as JS floats (package weights) are modelled as rationals;
all weight literals appearing in the claims are exactly representable.
Timestamp-only fields (`createdAt`, `updatedAt`, `matchFinalizedAt`,
`suspendedAt`) are not modelled: no claim and no branch of the embedded
logic reads them.

Sources embedded:
  * `src/unnamed/part_002` — the standalone rewrite cited by most claims
    (namespace `P2`): airport/weight/date helpers, compatibility engine,
    `handleUserMatchConfirm`, `processApprove`, `processReject`,
    admin `/terminate`, submission inserts, `handleSenderTextStep`.
  * `src/bot.js` — the concatenated rewrite (namespace `BotJs`):
    `processApprove`, `processReject`, the three registered
    `bot.on('message')` listeners and the session flows they call.
    `bot.js` declares many functions twice; under JavaScript function
    hoisting the later declaration wins, which the embedding follows.
-/

namespace AirDlivers

/-! ## JavaScript string primitives -/

/-- The whitespace class used by the source's `\s` regexes and `trim`,
restricted to the ASCII whitespace characters (the only ones that can
appear in the inputs considered here). -/
def jsWhitespace (c : Char) : Bool :=
  c = ' ' || c = '\t' || c = '\n' || c = '\r' || c = '\x0b' || c = '\x0c'

/-- JS `\w` word characters, as used by the `\b` word-boundary assertion. -/
def jsWordChar (c : Char) : Bool :=
  c.isAlpha || c.isDigit || c = '_'

/-- `String.prototype.trim`: drop leading and trailing whitespace. -/
def jsTrimList (cs : List Char) : List Char :=
  ((cs.dropWhile jsWhitespace).reverse.dropWhile jsWhitespace).reverse

/-- Fuel-driven worker for `collapseWs`; the fuel is an upper bound on the
number of characters still to be consumed, so recursion is structural. -/
def collapseWsAux : Nat → List Char → List Char
  | 0, l => l
  | _ + 1, [] => []
  | fuel + 1, c :: rest =>
    if jsWhitespace c then ' ' :: collapseWsAux fuel (rest.dropWhile jsWhitespace)
    else c :: collapseWsAux fuel rest

/-- `.replace(/\s+/g, ' ')`: collapse every whitespace run to one space. -/
def collapseWs (cs : List Char) : List Char :=
  collapseWsAux cs.length cs

/-- Word boundary after a token: end of string or a non-word character. -/
def atWordBoundary : List Char → Bool
  | [] => true
  | c :: _ => !jsWordChar c

/-- Fuel-driven worker for `stripWsToken`. -/
def stripWsTokenAux (tok : List Char) : Nat → List Char → List Char
  | 0, l => l
  | _ + 1, [] => []
  | fuel + 1, c :: rest =>
    if jsWhitespace c then
      let after := (c :: rest).dropWhile jsWhitespace
      if tok.isPrefixOf after && atWordBoundary (after.drop tok.length) then
        stripWsTokenAux tok fuel (after.drop tok.length)
      else
        c :: stripWsTokenAux tok fuel rest
    else
      c :: stripWsTokenAux tok fuel rest

/-- `.replace(/\s+TOK\b/g, '')`: delete every occurrence of a whitespace
run followed by the token `tok` at a word boundary.  (The token begins
with a letter, so the regex engine's backtracking over `\s+` can never
produce a match that the greedy scan misses.) -/
def stripWsToken (tok : String) (cs : List Char) : List Char :=
  stripWsTokenAux tok.data cs.length cs

/-- `normalizeAirportName` (part_002 line 198, bot.js line 1199):
trim, uppercase, collapse whitespace, then strip `\s+AIRPORT\b`,
`\s+INTL\b`, `\s+INTERNATIONAL\b` in that order. -/
def normalizeAirportName (s : String) : String :=
  let cs := (jsTrimList s.data).map Char.toUpper
  let cs := collapseWs cs
  let cs := stripWsToken "AIRPORT" cs
  let cs := stripWsToken "INTL" cs
  let cs := stripWsToken "INTERNATIONAL" cs
  String.mk cs

/-- `airportsMatch` (part_002 line 208): `na && nb && na === nb` used as a
boolean — both normalized names must be non-empty (JS `''` is falsy) and
identical. -/
def airportsMatch (a b : String) : Bool :=
  let na := normalizeAirportName a
  let nb := normalizeAirportName b
  !(na = "") && !(nb = "") && na = nb

/-- Rendition of the specification's own wording for the normalization
("uppercase, collapse internal whitespace, strip the tokens
INTERNATIONAL, INTL, AIRPORT as whole words"): after trimming,
uppercasing and collapsing, every whole whitespace-separated word equal
to one of the three tokens is removed, wherever it stands. -/
def splitOnSpaceAux : List Char → List Char → List (List Char)
  | [], acc => [acc.reverse]
  | c :: rest, acc =>
    if c = ' ' then acc.reverse :: splitOnSpaceAux rest []
    else splitOnSpaceAux rest (c :: acc)

def joinWithSpace : List (List Char) → List Char
  | [] => []
  | [w] => w
  | w :: ws => w ++ ' ' :: joinWithSpace ws

def normalizeAirportNameSpec (s : String) : String :=
  let cs := collapseWs ((jsTrimList s.data).map Char.toUpper)
  let words := splitOnSpaceAux cs []
  let kept := words.filter
    (fun w => w ≠ "AIRPORT".data && w ≠ "INTL".data && w ≠ "INTERNATIONAL".data)
  String.mk (joinWithSpace kept)

example : normalizeAirportName "Mumbai International" = "MUMBAI" := by decide
example : normalizeAirportName "  delhi   intl  airport " = "DELHI" := by decide
example : normalizeAirportName "INTL DELHI" = "INTL DELHI" := by decide
example : normalizeAirportNameSpec "INTL DELHI" = "DELHI" := by decide
example : airportsMatch "Mumbai International" "MUMBAI" = true := by decide
example : airportsMatch " " " " = false := by decide

/-! ## Numbers

Package weights travel through `parseFloat` in the source.  They are
modelled as rationals; every decimal literal is represented exactly. -/

/-- Numeric value of a list of decimal digit characters. -/
def digitsToNat (ds : List Char) : Nat :=
  ds.foldl (fun n c => 10 * n + (c.toNat - '0'.toNat)) 0

/-- Rational subtraction written out on numerators and denominators, so
that it evaluates inside the kernel (the library's `Rat.sub` is opaque to
reduction); `ratSub_eq` identifies it with ordinary subtraction. -/
def ratSub (a b : ℚ) : ℚ :=
  mkRat (a.num * (b.den : Int) - b.num * (a.den : Int)) (a.den * b.den)

/-- Kernel-evaluable negation on `ℚ`. -/
def ratNeg (a : ℚ) : ℚ := mkRat (-a.num) a.den

/-- Kernel-evaluable absolute value on `ℚ`. -/
def ratAbs (a : ℚ) : ℚ := if a < 0 then ratNeg a else a

theorem ratNeg_eq (a : ℚ) : ratNeg a = -a := by
  rw [ratNeg, Rat.mkRat_eq_div]
  push_cast
  rw [neg_div, Rat.num_div_den]

theorem ratSub_eq (a b : ℚ) : ratSub a b = a - b := by
  have ha : ((a.den : ℚ)) ≠ 0 := by
    exact_mod_cast a.den_nz
  have hb : ((b.den : ℚ)) ≠ 0 := by
    exact_mod_cast b.den_nz
  conv_rhs => rw [← Rat.num_div_den a, ← Rat.num_div_den b]
  rw [ratSub, Rat.mkRat_eq_div, div_sub_div _ _ ha hb]
  push_cast
  ring

theorem ratAbs_eq (a : ℚ) : ratAbs a = |a| := by
  rw [ratAbs]
  split
  · rw [ratNeg_eq, abs_of_neg]; assumption
  · rw [abs_of_nonneg]; linarith [not_lt.mp (by assumption : ¬ a < 0)]

/-- Value of `parseFloat` applied to a matched group `DIGITS(.DIGITS)?`. -/
def decimalValue (intPart fracPart : List Char) : ℚ :=
  mkRat (digitsToNat intPart * 10 ^ fracPart.length + digitsToNat fracPart)
    (10 ^ fracPart.length)

/-- First match of the regex `(\d+(\.\d+)?)` in a string, evaluated by
`parseFloat` — the scan walks left to right, takes the first maximal
digit run, and attaches a fractional part only when the run is
immediately followed by a dot and another digit. -/
def extractFirstNumberAux : List Char → Option ℚ
  | [] => none
  | c :: rest =>
    if c.isDigit then
      let intPart := (c :: rest).takeWhile Char.isDigit
      let after := (c :: rest).dropWhile Char.isDigit
      match after with
      | '.' :: d :: _ =>
        if d.isDigit then
          some (decimalValue intPart ((after.drop 1).takeWhile Char.isDigit))
        else some (mkRat (digitsToNat intPart) 1)
      | _ => some (mkRat (digitsToNat intPart) 1)
    else extractFirstNumberAux rest

def extractFirstNumber (s : String) : Option ℚ :=
  extractFirstNumberAux s.data

example : extractFirstNumber "-3" = some (mkRat 3 1) := by decide
example : extractFirstNumber "abc 5.5 xyz" = some (mkRat 11 2) := by decide
example : extractFirstNumber "no digits" = none := by decide

/-- `isWeightCompatible` (part_002 line 214): both weights present
(JS `== null` check) and `|sender − traveler| ≤ 2` kilograms. -/
def isWeightCompatible (senderWeight travelerWeight : Option ℚ) : Bool :=
  match senderWeight, travelerWeight with
  | some s, some t => if ratAbs (ratSub s t) ≤ (2 : ℚ) then true else false
  | _, _ => false

theorem isWeightCompatible_some (s t : ℚ) :
    isWeightCompatible (some s) (some t) = true ↔ |s - t| ≤ 2 := by
  simp [isWeightCompatible, ratAbs_eq, ratSub_eq]

example : isWeightCompatible (some (mkRat 5 1)) (some (mkRat 7 1)) = true := by decide
example : isWeightCompatible (some (mkRat 5 1)) (some (mkRat 701 100)) = false := by decide

/-! ## Calendar dates

The source parses dates with strict-format `moment` patterns and compares
them at start-of-day granularity.  A date is modelled by its civil
components plus the day-number conversion used for day differences. -/

structure Date where
  day : Nat
  month : Nat
  year : Nat
deriving DecidableEq, Repr

def isLeapYear (y : Nat) : Bool :=
  y % 4 = 0 && (y % 100 ≠ 0 || y % 400 = 0)

def daysInMonth (y m : Nat) : Nat :=
  if m = 2 then (if isLeapYear y then 29 else 28)
  else if m = 4 || m = 6 || m = 9 || m = 11 then 30
  else 31

/-- Days since 1970-01-01 of a civil date (Howard Hinnant's algorithm);
this is the quantity `moment.startOf('day')` differences are taken on. -/
def daysFromCivil (dt : Date) : Int :=
  let y : Int := (dt.year : Int) - (if dt.month ≤ 2 then 1 else 0)
  let era : Int := Int.fdiv y 400
  let yoe : Int := y - era * 400
  let mp : Int := ((dt.month : Int) + 9) % 12
  let doy : Int := Int.fdiv (153 * mp + 2) 5 + (dt.day : Int) - 1
  let doe : Int := yoe * 365 + Int.fdiv yoe 4 - Int.fdiv yoe 100 + doy
  era * 146097 + doe - 719468

example : daysFromCivil ⟨1, 1, 1970⟩ = 0 := by decide
example : daysFromCivil ⟨2, 1, 1970⟩ = 1 := by decide
example : daysFromCivil ⟨1, 3, 2020⟩ - daysFromCivil ⟨29, 2, 2020⟩ = 1 := by decide

/-- Greedy 1–2 digit numeric field, as `moment`'s strict `DD`/`MM`/`HH`/`mm`
tokens parse it. -/
def takeUpTo2Digits : List Char → Option (Nat × List Char)
  | a :: b :: rest =>
    if a.isDigit then
      if b.isDigit then some (digitsToNat [a, b], rest)
      else some (digitsToNat [a], b :: rest)
    else none
  | [a] => if a.isDigit then some (digitsToNat [a], []) else none
  | [] => none

/-- Exactly four digits, as `moment`'s strict `YYYY` token parses it. -/
def take4Digits : List Char → Option (Nat × List Char)
  | a :: b :: c :: d :: rest =>
    if a.isDigit && b.isDigit && c.isDigit && d.isDigit then
      some (digitsToNat [a, b, c, d], rest)
    else none
  | _ => none

def validDate (d m y : Nat) : Bool :=
  1 ≤ m && m ≤ 12 && 1 ≤ d && d ≤ daysInMonth y m

/-- `moment(txt, 'DD-MM-YYYY', true)`: strict parse of the whole string,
rejecting calendar overflow. -/
def parseDDMMYYYY (s : String) : Option Date :=
  match takeUpTo2Digits s.data with
  | some (d, '-' :: r1) =>
    match takeUpTo2Digits r1 with
    | some (m, '-' :: r2) =>
      match take4Digits r2 with
      | some (y, []) => if validDate d m y then some ⟨d, m, y⟩ else none
      | _ => none
    | _ => none
  | _ => none

/-- `moment(txt, 'DD-MM-YYYY HH:mm', true)`: strict parse; the returned
value keeps only the civil date, which is all `startOf('day')` retains. -/
def parseDDMMYYYYHHmm (s : String) : Option Date :=
  match takeUpTo2Digits s.data with
  | some (d, '-' :: r1) =>
    match takeUpTo2Digits r1 with
    | some (m, '-' :: r2) =>
      match take4Digits r2 with
      | some (y, ' ' :: r3) =>
        match takeUpTo2Digits r3 with
        | some (hh, ':' :: r4) =>
          match takeUpTo2Digits r4 with
          | some (mm, []) =>
            if validDate d m y && hh ≤ 23 && mm ≤ 59 then some ⟨d, m, y⟩ else none
          | _ => none
        | _ => none
      | _ => none
    | _ => none
  | _ => none

example : parseDDMMYYYY "05-01-2030" = some ⟨5, 1, 2030⟩ := by decide
example : parseDDMMYYYY "31-02-2030" = none := by decide
example : parseDDMMYYYYHHmm "06-01-2030 10:30" = some ⟨6, 1, 2030⟩ := by decide
example : parseDDMMYYYYHHmm "06-01-2030" = none := by decide

/-- `areDatesClose` (part_002 line 220): both strings non-empty, both
parse strictly (`DD-MM-YYYY` for the sender's ship date, `DD-MM-YYYY HH:mm`
for the traveler's departure), and the start-of-day difference is at most
one day in absolute value. -/
def areDatesClose (senderSendDate travelerDeparture : String) : Bool :=
  if senderSendDate = "" || travelerDeparture = "" then false
  else
    match parseDDMMYYYY senderSendDate, parseDDMMYYYYHHmm travelerDeparture with
    | some s, some t =>
      if |daysFromCivil t - daysFromCivil s| ≤ (1 : Int) then true else false
    | _, _ => false

example : areDatesClose "05-01-2030" "06-01-2030 09:00" = true := by decide
example : areDatesClose "05-01-2030" "07-01-2030 09:00" = false := by decide

/-! ## Compatibility engine (part_002 lines 364–406) -/

/-- Sender-side snapshot (`buildSenderSnapshot`).  String fields use `""`
for an absent value — the only falsy string in JS — and the weight uses
`none` for JS `null`/`undefined`. -/
structure SenderSnap where
  requestId : String
  pickup : String
  destination : String
  weight : Option ℚ
  sendDate : String
  matchLocked : Bool
deriving DecidableEq, Repr

/-- Traveler-side snapshot (`buildTravelerSnapshot`). -/
structure TravelerSnap where
  requestId : String
  departure : String
  destination : String
  departureTime : String
  availableWeight : Option ℚ
  matchLocked : Bool
deriving DecidableEq, Repr

/-- `isSenderTravelerCompatible` (part_002 line 394): presence checks on
the route and date fields, airports equal both directions, weight within
tolerance, dates close, neither side locked. -/
def isSenderTravelerCompatible (s : SenderSnap) (t : TravelerSnap) : Bool :=
  if s.pickup = "" || s.destination = "" || s.sendDate = "" then false
  else if t.departure = "" || t.destination = "" || t.departureTime = "" then false
  else if !airportsMatch s.pickup t.departure then false
  else if !airportsMatch s.destination t.destination then false
  else if !isWeightCompatible s.weight t.availableWeight then false
  else if !areDatesClose s.sendDate t.departureTime then false
  else if s.matchLocked || t.matchLocked then false
  else true

/-! ## Input validators shared by the submission flows -/

def jsTrimString (s : String) : String := String.mk (jsTrimList s.data)

/-- `isValidPhone`: the regex `/^\+\d{8,15}$/` applied to the trimmed text. -/
def isValidPhone (txt : String) : Bool :=
  match jsTrimList txt.data with
  | '+' :: ds => ds.all Char.isDigit && 8 ≤ ds.length && ds.length ≤ 15
  | _ => false

/-- A dot that is not the final character of the list. -/
def hasDotNotLast : List Char → Bool
  | [] => false
  | [_] => false
  | c :: rest => c = '.' || hasDotNotLast rest

/-- `isValidEmail`: the regex `/^[^\s@]+@[^\s@]+\.[^\s@]+$/` applied to the
trimmed text — no whitespace, a single `@` preceded by at least one
character, and a dot inside the domain with at least one character on
each side. -/
def isValidEmail (txt : String) : Bool :=
  let cs := jsTrimList txt.data
  let localPart := cs.takeWhile (fun c => c ≠ '@')
  match cs.dropWhile (fun c => c ≠ '@') with
  | '@' :: dom =>
    (cs.all (fun c => !jsWhitespace c)) && localPart ≠ [] &&
      dom.all (fun c => c ≠ '@') &&
      (match dom with
       | [] => false
       | _ :: rest => hasDotNotLast rest)
  | _ => false

example : isValidPhone "+911234567890" = true := by decide
example : isValidPhone "9112345678" = false := by decide
example : isValidEmail "a@b.c" = true := by decide
example : isValidEmail "a@b." = false := by decide

/-- Two-digit year field of `moment`'s strict `YY` token, widened by its
two-digit-year rule (`≤ 68` → 2000s, else 1900s). -/
def take2DigitYear : List Char → Option (Nat × List Char)
  | a :: b :: rest =>
    if a.isDigit && b.isDigit then
      let yy := digitsToNat [a, b]
      some ((if yy ≤ 68 then 2000 + yy else 1900 + yy), rest)
    else none
  | _ => none

/-- `moment(txt, 'DD-MM-YY HH:mm', true)` (bot.js line 1180): strict parse
keeping the civil date. -/
def parseDDMMYYHHmm (s : String) : Option Date :=
  match takeUpTo2Digits s.data with
  | some (d, '-' :: r1) =>
    match takeUpTo2Digits r1 with
    | some (m, '-' :: r2) =>
      match take2DigitYear r2 with
      | some (y, ' ' :: r3) =>
        match takeUpTo2Digits r3 with
        | some (hh, ':' :: r4) =>
          match takeUpTo2Digits r4 with
          | some (mm, []) =>
            if validDate d m y && hh ≤ 23 && mm ≤ 59 then some ⟨d, m, y⟩ else none
          | _ => none
        | _ => none
      | _ => none
    | _ => none
  | _ => none

example : parseDDMMYYHHmm "06-01-30 10:30" = some ⟨6, 1, 2030⟩ := by decide

/-! ## Messages answered to the chat

Outbound texts are reduced to tags naming the branch that produced them. -/

inductive Msg
  | suspendedNotice
  | superAdminGranted
  | askPin
  | notAuthorizedAdmin
  | loginOk
  | invalidPin
  | rejectionSent
  | invalidName
  | enterPhone
  | invalidPhone
  | enterEmail
  | invalidEmail
  | enterPickup
  | promptPickupAgain
  | enterDestination
  | enterWeight
  | invalidWeightFormat
  | positiveWeightRequired
  | weightTooHeavy
  | chooseCategory
  | invalidSendDate
  | sendDatePast
  | enterArrivalDate
  | invalidArrivalDate
  | arrivalDatePast
  | arrivalBeforeSend
  | uploadSelfie
  | promptNotes
  | summaryShown
  | enterDepartureAirport
  | enterDepartureCountry
  | enterDestinationAirport
  | enterArrivalCountry
  | enterDepartureTime
  | invalidDateTime
  | enterArrivalTime
  | enterAvailableWeight
  | enterPassport
  | invalidPassport
  | uploadPassportSelfie
  | trackingStatus
  | noRecordFound
  | forwardedToPartner
  | forwardedToAdmin
deriving DecidableEq, Repr

/-! ## Request records and the record store

Persisted request documents, embedded as association lists per
collection.  `Option` models Mongo null/absent fields; `$unset` of the
boolean `matchLocked` is modelled as setting it to `false`, which is how
every read in the source treats an absent flag. -/

inductive Role
  | sender
  | traveler
deriving DecidableEq, Repr

def Role.other : Role → Role
  | .sender => .traveler
  | .traveler => .sender

inductive Status
  | Pending
  | VisaRequested
  | VisaUploaded
  | Approved
  | Rejected
deriving DecidableEq, Repr

structure Req where
  requestId : String
  userId : Nat
  role : Role
  status : Status
  adminNote : String
  matchLocked : Bool
  pendingMatchWith : Option String
  matchedWith : Option String
  chatTerminated : Bool
  terminationReason : String
  phone : String
deriving DecidableEq, Repr

/-- `col.findOne({ requestId })`. -/
def findReq (l : List Req) (rid : String) : Option Req :=
  l.find? (fun r => r.requestId == rid)

/-- `col.updateOne(filter, …)`: update the first matching document. -/
def updateFirst (p : Req → Bool) (f : Req → Req) : List Req → List Req
  | [] => []
  | r :: rest => if p r then f r :: rest else r :: updateFirst p f rest

/-- `col.updateMany(filter, …)`: update every matching document. -/
def updateAll (p : Req → Bool) (f : Req → Req) (l : List Req) : List Req :=
  l.map (fun r => if p r then f r else r)

structure DB where
  senders : List Req
  travelers : List Req
deriving DecidableEq, Repr

def DB.colOf (db : DB) : Role → List Req
  | .sender => db.senders
  | .traveler => db.travelers

def DB.setCol (db : DB) : Role → List Req → DB
  | .sender, l => { db with senders := l }
  | .traveler, l => { db with travelers := l }

def DB.empty : DB := ⟨[], []⟩

def DB.allReqs (db : DB) : List Req := db.senders ++ db.travelers

/-- The user-visible answer of an operation (callback answers and admin
notices), reduced to which branch of the handler produced it. -/
inductive Reply
  | requestNotFound
  | alreadyApproved
  | alreadyRejected
  | cannotRejectApproved
  | approvedOk
  | rejectedOk
  | matchNotFound
  | notForYou
  | notApprovedAnymore
  | alreadyMatched
  | alreadyConfirmedAnother
  | matchConfirmed
  | confirmationSent
  | userNotFound
  | terminated
deriving DecidableEq, Repr

namespace P2

/-! ### Operations of `src/unnamed/part_002` -/

/-- `sendersCol.findOne({requestId}) || travelersCol.findOne({requestId})`. -/
def findEither (db : DB) (rid : String) : Option Req :=
  match findReq db.senders rid with
  | some f => some f
  | none => findReq db.travelers rid

/-- `processApprove` (part_002 line 1885).  Guards: a missing request, an
already-Approved request and an already-Rejected request answer without
touching the store; otherwise the document's status becomes `Approved`
with an admin note.  (`triggerMatchingForRequest`, called afterwards,
only sends match cards and performs no store write.) -/
def processApprove (db : DB) (rid invokedBy : String) : DB × Reply :=
  match findEither db rid with
  | none => (db, .requestNotFound)
  | some found =>
    if found.status = .Approved then (db, .alreadyApproved)
    else if found.status = .Rejected then (db, .alreadyRejected)
    else
      let f := fun r : Req =>
        { r with status := .Approved, adminNote := "Approved by admin " ++ invokedBy }
      (db.setCol found.role (updateFirst (fun r => r.requestId == rid) f (db.colOf found.role)),
       .approvedOk)

/-- `processReject` (part_002 line 1939).  Guards: missing request,
already-Rejected, and — unlike the spec's wording — already-Approved
(`'Already approved; cannot reject.'`) all answer without touching the
store; otherwise the status becomes `Rejected` with the reason as note
and `pendingMatchWith` / `matchedWith` / `matchLocked` are unset. -/
def processReject (db : DB) (rid reasonText : String) : DB × Reply :=
  match findEither db rid with
  | none => (db, .requestNotFound)
  | some found =>
    if found.status = .Rejected then (db, .alreadyRejected)
    else if found.status = .Approved then (db, .cannotRejectApproved)
    else
      let f := fun r : Req =>
        { r with status := .Rejected, adminNote := reasonText,
                 pendingMatchWith := none, matchedWith := none, matchLocked := false }
      (db.setCol found.role (updateFirst (fun r => r.requestId == rid) f (db.colOf found.role)),
       .rejectedOk)

/-- Outcome of the guard cascade of `handleUserMatchConfirm`, computed
from the snapshot read at the start of the handler. -/
inductive ConfirmDecision
  | fail (r : Reply)
  | lockPair
  | firstConfirm
deriving DecidableEq, Repr

/-- Read phase of `handleUserMatchConfirm` (part_002 line 581): the two
`findOne` reads and the guard cascade, all evaluated against one
snapshot of the store. -/
def confirmDecide (db : DB) (myRole : Role) (myReqId otherReqId : String) (uid : Nat) :
    ConfirmDecision :=
  match findReq (db.colOf myRole) myReqId, findReq (db.colOf myRole.other) otherReqId with
  | none, _ => .fail .matchNotFound
  | some _, none => .fail .matchNotFound
  | some myDoc, some otherDoc =>
    if myDoc.userId ≠ uid then .fail .notForYou
    else if myDoc.status ≠ .Approved ∨ otherDoc.status ≠ .Approved then
      .fail .notApprovedAnymore
    else if myDoc.matchLocked || otherDoc.matchLocked then .fail .alreadyMatched
    else if (match myDoc.pendingMatchWith with
             | some p => p != otherReqId
             | none => false) then .fail .alreadyConfirmedAnother
    else if otherDoc.pendingMatchWith = some myReqId then .lockPair
    else .firstConfirm

/-- Write phase of `handleUserMatchConfirm`: the `updateOne` calls the
source issues for each decision.  The update filters carry only the
`requestId` — none of the guard conditions is re-checked at write time. -/
def confirmApply (db : DB) (myRole : Role) (myReqId otherReqId : String) :
    ConfirmDecision → DB × Reply
  | .fail r => (db, r)
  | .lockPair =>
    let lockMine := fun r : Req =>
      { r with matchLocked := true, matchedWith := some otherReqId, pendingMatchWith := none }
    let lockOther := fun r : Req =>
      { r with matchLocked := true, matchedWith := some myReqId, pendingMatchWith := none }
    let db1 := db.setCol myRole
      (updateFirst (fun r => r.requestId == myReqId) lockMine (db.colOf myRole))
    let db2 := db1.setCol myRole.other
      (updateFirst (fun r => r.requestId == otherReqId) lockOther (db1.colOf myRole.other))
    (db2, .matchConfirmed)
  | .firstConfirm =>
    (db.setCol myRole
      (updateFirst (fun r => r.requestId == myReqId)
        (fun r => { r with pendingMatchWith := some otherReqId }) (db.colOf myRole)),
     .confirmationSent)

/-- `handleUserMatchConfirm` handled atomically: the write phase applied
to the same store snapshot the read phase saw.  (Under the source's
single-threaded dispatch this is the behaviour of one uninterleaved
handler run.) -/
def handleUserMatchConfirm (db : DB) (myRole : Role) (myReqId otherReqId : String)
    (uid : Nat) : DB × Reply :=
  confirmApply db myRole myReqId otherReqId (confirmDecide db myRole myReqId otherReqId uid)

/-- `findUserByUserId` (part_002 line 182). -/
def findUserByUserId (db : DB) (uid : Nat) : Option Req :=
  match db.senders.find? (fun r => r.userId == uid) with
  | some r => some r
  | none => db.travelers.find? (fun r => r.userId == uid)

/-- The admin `/terminate <userId> <reason>` branch (part_002 line 832),
reached with admin authority: both collections get `updateMany({userId})`
setting `chatTerminated` and the reason and unsetting `matchedWith` and
`pendingMatchWith` — note that `matchLocked` is left as it was. -/
def terminateCmd (db : DB) (uid : Nat) (reason : String) : DB × Reply :=
  match findUserByUserId db uid with
  | none => (db, .userNotFound)
  | some _ =>
    let f := fun r : Req =>
      { r with chatTerminated := true, terminationReason := reason,
               matchedWith := none, pendingMatchWith := none }
    ({ senders := updateAll (fun r => r.userId == uid) f db.senders,
       travelers := updateAll (fun r => r.userId == uid) f db.travelers },
     .terminated)

/-- The document persisted by `handleFinalSenderSubmit` /
`handleFinalTravelerSubmit` (part_002 lines 1756, 1818). -/
def freshReq (rid : String) (uid : Nat) (role : Role) : Req :=
  { requestId := rid, userId := uid, role := role, status := .Pending,
    adminNote := "", matchLocked := false, pendingMatchWith := none,
    matchedWith := none, chatTerminated := false, terminationReason := "",
    phone := "" }

def submitSender (db : DB) (rid : String) (uid : Nat) : DB :=
  { db with senders := db.senders ++ [freshReq rid uid .sender] }

def submitTraveler (db : DB) (rid : String) (uid : Nat) : DB :=
  { db with travelers := db.travelers ++ [freshReq rid uid .traveler] }

/-! ### The operation alphabet of the part_002 lifecycle -/

inductive Op
  | submitSender (rid : String) (uid : Nat)
  | submitTraveler (rid : String) (uid : Nat)
  | approve (rid invokedBy : String)
  | reject (rid reason : String)
  | confirm (role : Role) (myRid otherRid : String) (uid : Nat)
  | terminate (uid : Nat) (reason : String)
deriving DecidableEq, Repr

def Op.isTerminate : Op → Bool
  | .terminate _ _ => true
  | _ => false

def step (db : DB) : Op → DB
  | .submitSender rid uid => submitSender db rid uid
  | .submitTraveler rid uid => submitTraveler db rid uid
  | .approve rid invokedBy => (processApprove db rid invokedBy).1
  | .reject rid reason => (processReject db rid reason).1
  | .confirm role myRid otherRid uid => (handleUserMatchConfirm db role myRid otherRid uid).1
  | .terminate uid reason => (terminateCmd db uid reason).1

def run (ops : List Op) : DB :=
  ops.foldl step DB.empty

/-! ### Invariants on records -/

/-- The full spec invariant on one record:
`matchLocked=true ⇒ matchedWith` present and `pendingMatchWith` absent. -/
def reqInv (r : Req) : Bool :=
  !r.matchLocked || (r.matchedWith.isSome && r.pendingMatchWith.isNone)

/-- The mutual-exclusion half: never locked with a pending reference. -/
def reqMutex (r : Req) : Bool :=
  !r.matchLocked || r.pendingMatchWith.isNone

def dbInv (db : DB) : Bool := db.senders.all reqInv && db.travelers.all reqInv

def dbMutex (db : DB) : Bool := db.senders.all reqMutex && db.travelers.all reqMutex

/-! ### Store-update lemmas -/

theorem all_updateFirst_congr (q p : Req → Bool) (f : Req → Req)
    (hcong : ∀ r, q (f r) = q r) :
    ∀ l : List Req, l.all q = true → (updateFirst p f l).all q = true := by
  intro l
  induction l with
  | nil => intro h; exact h
  | cons a t ih =>
    intro h
    rw [List.all_cons, Bool.and_eq_true] at h
    cases hpa : p a with
    | true => simp [updateFirst, hpa, List.all_cons, hcong a, h.1, h.2]
    | false => simp [updateFirst, hpa, List.all_cons, h.1, ih h.2]

theorem all_updateFirst_const (q p : Req → Bool) (f : Req → Req)
    (hconst : ∀ r, q (f r) = true) :
    ∀ l : List Req, l.all q = true → (updateFirst p f l).all q = true := by
  intro l
  induction l with
  | nil => intro h; exact h
  | cons a t ih =>
    intro h
    rw [List.all_cons, Bool.and_eq_true] at h
    cases hpa : p a with
    | true => simp [updateFirst, hpa, List.all_cons, hconst a, h.2]
    | false => simp [updateFirst, hpa, List.all_cons, h.1, ih h.2]

theorem all_updateFirst_found (q p : Req → Bool) (f : Req → Req) :
    ∀ l : List Req, l.all q = true →
      (∀ r, l.find? p = some r → q (f r) = true) →
      (updateFirst p f l).all q = true := by
  intro l
  induction l with
  | nil => intro h _; exact h
  | cons a t ih =>
    intro h hf
    rw [List.all_cons, Bool.and_eq_true] at h
    cases hpa : p a with
    | true =>
      have h1 : q (f a) = true := hf a (by simp [List.find?_cons, hpa])
      simp [updateFirst, hpa, List.all_cons, h1, h.2]
    | false =>
      have h2 := ih h.2 (fun r hr => hf r (by simp [List.find?_cons, hpa, hr]))
      simp [updateFirst, hpa, List.all_cons, h.1, h2]

theorem all_updateAll_const (q p : Req → Bool) (f : Req → Req)
    (hconst : ∀ r, q (f r) = true) :
    ∀ l : List Req, l.all q = true → (updateAll p f l).all q = true := by
  intro l
  induction l with
  | nil => intro h; exact h
  | cons a t ih =>
    intro h
    rw [List.all_cons, Bool.and_eq_true] at h
    have ht := ih h.2
    cases hpa : p a with
    | true => simp [updateAll, hpa, List.all_cons, hconst a] at ht ⊢; exact ht
    | false => simp [updateAll, hpa, List.all_cons, h.1] at ht ⊢; exact ht

/-- Looking the updated key up after an `updateFirst` keyed on `requestId`
returns the image of what the lookup returned before, provided the update
does not move the key. -/
theorem findReq_updateFirst (f : Req → Req) (hf : ∀ r, (f r).requestId = r.requestId)
    (rid : String) :
    ∀ l : List Req,
      findReq (updateFirst (fun r => r.requestId == rid) f l) rid =
        (findReq l rid).map f := by
  intro l
  induction l with
  | nil => rfl
  | cons a t ih =>
    cases hpa : (a.requestId == rid) with
    | true =>
      have h1 : ((f a).requestId == rid) = true := by rw [hf a]; exact hpa
      simp [updateFirst, findReq, hpa, List.find?_cons, h1]
    | false =>
      simpa [updateFirst, findReq, hpa, List.find?_cons] using ih

/-- Looking up a different key is unaffected by an `updateFirst` keyed on
`requestId`, provided the update does not move the key. -/
theorem findReq_updateFirst_ne (f : Req → Req) (hf : ∀ r, (f r).requestId = r.requestId)
    (rid rid2 : String) (hne : rid2 ≠ rid) :
    ∀ l : List Req,
      findReq (updateFirst (fun r => r.requestId == rid) f l) rid2 = findReq l rid2 := by
  intro l
  induction l with
  | nil => rfl
  | cons a t ih =>
    cases hpa : (a.requestId == rid) with
    | true =>
      have ha : a.requestId = rid := eq_of_beq hpa
      have h1 : ((f a).requestId == rid2) = false := by
        rw [hf a, ha]; exact beq_eq_false_iff_ne.mpr (fun h => hne h.symm)
      have h2 : (a.requestId == rid2) = false := by
        rw [ha]; exact beq_eq_false_iff_ne.mpr (fun h => hne h.symm)
      simp [updateFirst, findReq, hpa, List.find?_cons, h1, h2]
    | false =>
      cases hq : (a.requestId == rid2) with
      | true => simp [updateFirst, findReq, hpa, List.find?_cons, hq]
      | false => simpa [updateFirst, findReq, hpa, List.find?_cons, hq] using ih

/-- A member of an `updateFirst` result is either an original member or
the image of the record the corresponding `find?` returns. -/
theorem mem_updateFirst {p : Req → Bool} {f : Req → Req} :
    ∀ {l : List Req} {x : Req}, x ∈ updateFirst p f l →
      x ∈ l ∨ ∃ r, l.find? p = some r ∧ x = f r := by
  intro l
  induction l with
  | nil => intro x hx; exact absurd hx (by simp [updateFirst])
  | cons a t ih =>
    intro x hx
    cases hpa : p a with
    | true =>
      simp only [updateFirst, hpa, if_true] at hx
      rcases List.mem_cons.mp hx with h | h
      · exact Or.inr ⟨a, by simp [List.find?_cons, hpa], h⟩
      · exact Or.inl (List.mem_cons_of_mem _ h)
    | false =>
      simp only [updateFirst, hpa, Bool.false_eq_true, if_false] at hx
      rcases List.mem_cons.mp hx with h | h
      · exact Or.inl (h ▸ List.mem_cons_self a t)
      · rcases ih h with h1 | ⟨r, hr, hx2⟩
        · exact Or.inl (List.mem_cons_of_mem _ h1)
        · exact Or.inr ⟨r, by simp [List.find?_cons, hpa, hr], hx2⟩

/-! ### Invariant preservation, operation by operation -/

theorem dbInv_processApprove (db : DB) (rid a : String) (h : dbInv db = true) :
    dbInv (processApprove db rid a).1 = true := by
  rw [dbInv, Bool.and_eq_true] at h
  cases hfe : findEither db rid with
  | none => simpa [processApprove, hfe, dbInv, Bool.and_eq_true] using h
  | some found =>
    by_cases h1 : found.status = Status.Approved
    · simpa [processApprove, hfe, h1, dbInv, Bool.and_eq_true] using h
    · by_cases h2 : found.status = Status.Rejected
      · simpa [processApprove, hfe, h1, h2, dbInv, Bool.and_eq_true] using h
      · cases hr : found.role with
        | sender =>
          simp only [processApprove, hfe, h1, h2, hr, if_false, DB.setCol, DB.colOf,
            dbInv, Bool.and_eq_true]
          exact ⟨all_updateFirst_congr _ _ _ (fun r => by rfl) _ h.1, h.2⟩
        | traveler =>
          simp only [processApprove, hfe, h1, h2, hr, if_false, DB.setCol, DB.colOf,
            dbInv, Bool.and_eq_true]
          exact ⟨h.1, all_updateFirst_congr _ _ _ (fun r => by rfl) _ h.2⟩

theorem dbMutex_processApprove (db : DB) (rid a : String) (h : dbMutex db = true) :
    dbMutex (processApprove db rid a).1 = true := by
  rw [dbMutex, Bool.and_eq_true] at h
  cases hfe : findEither db rid with
  | none => simpa [processApprove, hfe, dbMutex, Bool.and_eq_true] using h
  | some found =>
    by_cases h1 : found.status = Status.Approved
    · simpa [processApprove, hfe, h1, dbMutex, Bool.and_eq_true] using h
    · by_cases h2 : found.status = Status.Rejected
      · simpa [processApprove, hfe, h1, h2, dbMutex, Bool.and_eq_true] using h
      · cases hr : found.role with
        | sender =>
          simp only [processApprove, hfe, h1, h2, hr, if_false, DB.setCol, DB.colOf,
            dbMutex, Bool.and_eq_true]
          exact ⟨all_updateFirst_congr _ _ _ (fun r => by rfl) _ h.1, h.2⟩
        | traveler =>
          simp only [processApprove, hfe, h1, h2, hr, if_false, DB.setCol, DB.colOf,
            dbMutex, Bool.and_eq_true]
          exact ⟨h.1, all_updateFirst_congr _ _ _ (fun r => by rfl) _ h.2⟩

theorem dbInv_processReject (db : DB) (rid reason : String) (h : dbInv db = true) :
    dbInv (processReject db rid reason).1 = true := by
  rw [dbInv, Bool.and_eq_true] at h
  cases hfe : findEither db rid with
  | none => simpa [processReject, hfe, dbInv, Bool.and_eq_true] using h
  | some found =>
    by_cases h1 : found.status = Status.Rejected
    · simpa [processReject, hfe, h1, dbInv, Bool.and_eq_true] using h
    · by_cases h2 : found.status = Status.Approved
      · simpa [processReject, hfe, h1, h2, dbInv, Bool.and_eq_true] using h
      · cases hr : found.role with
        | sender =>
          simp only [processReject, hfe, h1, h2, hr, if_false, DB.setCol, DB.colOf,
            dbInv, Bool.and_eq_true]
          exact ⟨all_updateFirst_const _ _ _ (fun r => by rfl) _ h.1, h.2⟩
        | traveler =>
          simp only [processReject, hfe, h1, h2, hr, if_false, DB.setCol, DB.colOf,
            dbInv, Bool.and_eq_true]
          exact ⟨h.1, all_updateFirst_const _ _ _ (fun r => by rfl) _ h.2⟩

theorem dbMutex_processReject (db : DB) (rid reason : String) (h : dbMutex db = true) :
    dbMutex (processReject db rid reason).1 = true := by
  rw [dbMutex, Bool.and_eq_true] at h
  cases hfe : findEither db rid with
  | none => simpa [processReject, hfe, dbMutex, Bool.and_eq_true] using h
  | some found =>
    by_cases h1 : found.status = Status.Rejected
    · simpa [processReject, hfe, h1, dbMutex, Bool.and_eq_true] using h
    · by_cases h2 : found.status = Status.Approved
      · simpa [processReject, hfe, h1, h2, dbMutex, Bool.and_eq_true] using h
      · cases hr : found.role with
        | sender =>
          simp only [processReject, hfe, h1, h2, hr, if_false, DB.setCol, DB.colOf,
            dbMutex, Bool.and_eq_true]
          exact ⟨all_updateFirst_const _ _ _ (fun r => by rfl) _ h.1, h.2⟩
        | traveler =>
          simp only [processReject, hfe, h1, h2, hr, if_false, DB.setCol, DB.colOf,
            dbMutex, Bool.and_eq_true]
          exact ⟨h.1, all_updateFirst_const _ _ _ (fun r => by rfl) _ h.2⟩

/-- A `firstConfirm` decision presupposes the confirming document was
found and was not locked at read time. -/
theorem confirmDecide_firstConfirm_elim (db : DB) (role : Role) (rid orid : String)
    (uid : Nat) (hd : confirmDecide db role rid orid uid = .firstConfirm) :
    ∃ myDoc, findReq (db.colOf role) rid = some myDoc ∧ myDoc.matchLocked = false := by
  cases hmy : findReq (db.colOf role) rid with
  | none => simp [confirmDecide, hmy] at hd
  | some myDoc =>
    cases hot : findReq (db.colOf role.other) orid with
    | none => simp [confirmDecide, hmy, hot] at hd
    | some otherDoc =>
      refine ⟨myDoc, rfl, ?_⟩
      by_cases g1 : myDoc.userId ≠ uid
      · simp [confirmDecide, hmy, hot, g1] at hd
      · by_cases g2 : myDoc.status ≠ Status.Approved ∨ otherDoc.status ≠ Status.Approved
        · simp [confirmDecide, hmy, hot, g1, g2] at hd
        · cases g3 : (myDoc.matchLocked || otherDoc.matchLocked) with
          | true => simp [confirmDecide, hmy, hot, g1, g2, g3] at hd
          | false =>
            cases hv : myDoc.matchLocked with
            | false => rfl
            | true => rw [hv] at g3; simp at g3

theorem dbInv_confirm (db : DB) (role : Role) (rid orid : String) (uid : Nat)
    (h : dbInv db = true) :
    dbInv (handleUserMatchConfirm db role rid orid uid).1 = true := by
  rw [dbInv, Bool.and_eq_true] at h
  cases hd : confirmDecide db role rid orid uid with
  | fail r =>
    simpa [handleUserMatchConfirm, hd, confirmApply, dbInv, Bool.and_eq_true] using h
  | lockPair =>
    cases role with
    | sender =>
      simp only [handleUserMatchConfirm, hd, confirmApply, Role.other, DB.colOf, DB.setCol,
        dbInv, Bool.and_eq_true]
      exact ⟨all_updateFirst_const _ _ _ (fun r => by rfl) _ h.1,
             all_updateFirst_const _ _ _ (fun r => by rfl) _ h.2⟩
    | traveler =>
      simp only [handleUserMatchConfirm, hd, confirmApply, Role.other, DB.colOf, DB.setCol,
        dbInv, Bool.and_eq_true]
      exact ⟨all_updateFirst_const _ _ _ (fun r => by rfl) _ h.1,
             all_updateFirst_const _ _ _ (fun r => by rfl) _ h.2⟩
  | firstConfirm =>
    obtain ⟨myDoc, hmy, hlock⟩ := confirmDecide_firstConfirm_elim db role rid orid uid hd
    cases role with
    | sender =>
      simp only [DB.colOf] at hmy
      simp only [handleUserMatchConfirm, hd, confirmApply, DB.colOf, DB.setCol,
        dbInv, Bool.and_eq_true]
      refine ⟨?_, h.2⟩
      apply all_updateFirst_found _ _ _ _ h.1
      intro r hr
      rw [findReq] at hmy
      rw [hmy] at hr
      cases hr
      simp [reqInv, hlock]
    | traveler =>
      simp only [DB.colOf] at hmy
      simp only [handleUserMatchConfirm, hd, confirmApply, DB.colOf, DB.setCol,
        dbInv, Bool.and_eq_true]
      refine ⟨h.1, ?_⟩
      apply all_updateFirst_found _ _ _ _ h.2
      intro r hr
      rw [findReq] at hmy
      rw [hmy] at hr
      cases hr
      simp [reqInv, hlock]

theorem dbMutex_confirm (db : DB) (role : Role) (rid orid : String) (uid : Nat)
    (h : dbMutex db = true) :
    dbMutex (handleUserMatchConfirm db role rid orid uid).1 = true := by
  rw [dbMutex, Bool.and_eq_true] at h
  cases hd : confirmDecide db role rid orid uid with
  | fail r =>
    simpa [handleUserMatchConfirm, hd, confirmApply, dbMutex, Bool.and_eq_true] using h
  | lockPair =>
    cases role with
    | sender =>
      simp only [handleUserMatchConfirm, hd, confirmApply, Role.other, DB.colOf, DB.setCol,
        dbMutex, Bool.and_eq_true]
      exact ⟨all_updateFirst_const _ _ _ (fun r => by rfl) _ h.1,
             all_updateFirst_const _ _ _ (fun r => by rfl) _ h.2⟩
    | traveler =>
      simp only [handleUserMatchConfirm, hd, confirmApply, Role.other, DB.colOf, DB.setCol,
        dbMutex, Bool.and_eq_true]
      exact ⟨all_updateFirst_const _ _ _ (fun r => by rfl) _ h.1,
             all_updateFirst_const _ _ _ (fun r => by rfl) _ h.2⟩
  | firstConfirm =>
    obtain ⟨myDoc, hmy, hlock⟩ := confirmDecide_firstConfirm_elim db role rid orid uid hd
    cases role with
    | sender =>
      simp only [DB.colOf] at hmy
      simp only [handleUserMatchConfirm, hd, confirmApply, DB.colOf, DB.setCol,
        dbMutex, Bool.and_eq_true]
      refine ⟨?_, h.2⟩
      apply all_updateFirst_found _ _ _ _ h.1
      intro r hr
      rw [findReq] at hmy
      rw [hmy] at hr
      cases hr
      simp [reqMutex, hlock]
    | traveler =>
      simp only [DB.colOf] at hmy
      simp only [handleUserMatchConfirm, hd, confirmApply, DB.colOf, DB.setCol,
        dbMutex, Bool.and_eq_true]
      refine ⟨h.1, ?_⟩
      apply all_updateFirst_found _ _ _ _ h.2
      intro r hr
      rw [findReq] at hmy
      rw [hmy] at hr
      cases hr
      simp [reqMutex, hlock]

theorem dbMutex_terminate (db : DB) (uid : Nat) (reason : String) (h : dbMutex db = true) :
    dbMutex (terminateCmd db uid reason).1 = true := by
  rw [dbMutex, Bool.and_eq_true] at h
  cases hfu : findUserByUserId db uid with
  | none => simpa [terminateCmd, hfu, dbMutex, Bool.and_eq_true] using h
  | some found =>
    simp only [terminateCmd, hfu, dbMutex, Bool.and_eq_true]
    exact ⟨all_updateAll_const _ _ _ (fun r => by simp [reqMutex]) _ h.1,
           all_updateAll_const _ _ _ (fun r => by simp [reqMutex]) _ h.2⟩

theorem dbInv_submitSender (db : DB) (rid : String) (uid : Nat) (h : dbInv db = true) :
    dbInv (submitSender db rid uid) = true := by
  rw [dbInv, Bool.and_eq_true] at h
  simp [submitSender, dbInv, List.all_append, h.1, h.2, freshReq, reqInv]

theorem dbInv_submitTraveler (db : DB) (rid : String) (uid : Nat) (h : dbInv db = true) :
    dbInv (submitTraveler db rid uid) = true := by
  rw [dbInv, Bool.and_eq_true] at h
  simp [submitTraveler, dbInv, List.all_append, h.1, h.2, freshReq, reqInv]

theorem dbMutex_submitSender (db : DB) (rid : String) (uid : Nat) (h : dbMutex db = true) :
    dbMutex (submitSender db rid uid) = true := by
  rw [dbMutex, Bool.and_eq_true] at h
  simp [submitSender, dbMutex, List.all_append, h.1, h.2, freshReq, reqMutex]

theorem dbMutex_submitTraveler (db : DB) (rid : String) (uid : Nat) (h : dbMutex db = true) :
    dbMutex (submitTraveler db rid uid) = true := by
  rw [dbMutex, Bool.and_eq_true] at h
  simp [submitTraveler, dbMutex, List.all_append, h.1, h.2, freshReq, reqMutex]

theorem step_mutex (db : DB) (op : Op) (h : dbMutex db = true) :
    dbMutex (step db op) = true := by
  cases op with
  | submitSender rid uid => exact dbMutex_submitSender db rid uid h
  | submitTraveler rid uid => exact dbMutex_submitTraveler db rid uid h
  | approve rid invokedBy => exact dbMutex_processApprove db rid invokedBy h
  | reject rid reason => exact dbMutex_processReject db rid reason h
  | confirm role myRid otherRid uid => exact dbMutex_confirm db role myRid otherRid uid h
  | terminate uid reason => exact dbMutex_terminate db uid reason h

theorem step_inv_of_not_terminate (db : DB) (op : Op) (hop : op.isTerminate = false)
    (h : dbInv db = true) : dbInv (step db op) = true := by
  cases op with
  | submitSender rid uid => exact dbInv_submitSender db rid uid h
  | submitTraveler rid uid => exact dbInv_submitTraveler db rid uid h
  | approve rid invokedBy => exact dbInv_processApprove db rid invokedBy h
  | reject rid reason => exact dbInv_processReject db rid reason h
  | confirm role myRid otherRid uid => exact dbInv_confirm db role myRid otherRid uid h
  | terminate uid reason => exact absurd hop (by simp [Op.isTerminate])

theorem run_mutex (ops : List Op) : dbMutex (run ops) = true := by
  have key : ∀ (l : List Op) (db : DB), dbMutex db = true →
      dbMutex (l.foldl step db) = true := by
    intro l
    induction l with
    | nil => intro db h; exact h
    | cons o t ih => intro db h; exact ih _ (step_mutex db o h)
  exact key ops DB.empty rfl

/-! ### The sender submission flow of part_002 (`handleSenderTextStep`, line 1481) -/

structure SenderData where
  name : String
  phone : String
  email : String
  pickup : String
  destination : String
  weight : Option ℚ
  category : String
  sendDate : String
  arrivalDate : String
  notes : String
deriving DecidableEq, Repr

def SenderData.empty : SenderData := ⟨"", "", "", "", "", none, "", "", "", ""⟩

structure SenderSession where
  step : String
  data : SenderData
  expectingPhoto : String
  requestId : String
  waitingForNotes : Bool
deriving DecidableEq, Repr

def pad2 (n : Nat) : String := if n < 10 then "0" ++ Nat.repr n else Nat.repr n

/-- `moment(d).format('DD-MM-YYYY')`. -/
def formatDDMMYYYY (d : Date) : String :=
  pad2 d.day ++ "-" ++ pad2 d.month ++ "-" ++ Nat.repr d.year

def lowerString (s : String) : String := String.mk (s.data.map Char.toLower)

/-- `handleSenderTextStep` (part_002 line 1481) on the session alone:
`none` in the first component models `userSessions[chatId] = null`
(the whole in-progress submission destroyed).  `today` is the day number
of `todayStart()`, and `newReqId` the value `makeRequestId('snd')` would
produce at this instant.  The text handed over by the message handler is
already trimmed. -/
def handleSenderTextStep (today : Int) (newReqId : String) (sess : SenderSession)
    (text : String) : Option SenderSession × List Msg :=
  let data := sess.data
  if sess.step = "sender_name" then
    if text.length < 2 then (some sess, [.invalidName])
    else
      (some { sess with data := { data with name := text }, step := "sender_phone" },
       [.enterPhone])
  else if sess.step = "sender_phone" then
    if !isValidPhone text then (some sess, [.invalidPhone])
    else
      (some { sess with data := { data with phone := jsTrimString text }, step := "sender_email" },
       [.enterEmail])
  else if sess.step = "sender_email" then
    if !isValidEmail text then (some sess, [.invalidEmail])
    else
      (some { sess with data := { data with email := jsTrimString text }, step := "pickup_airport" },
       [.enterPickup])
  else if sess.step = "pickup_airport" then
    if text = "" then (some sess, [.promptPickupAgain])
    else
      (some { sess with data := { data with pickup := text }, step := "destination_airport" },
       [.enterDestination])
  else if sess.step = "destination_airport" then
    (some { sess with data := { data with destination := text }, step := "package_weight" },
     [.enterWeight])
  else if sess.step = "package_weight" then
    match extractFirstNumber text with
    | none => (some sess, [.invalidWeightFormat])
    | some w =>
      if w ≤ 0 then (some sess, [.positiveWeightRequired])
      else if (10 : ℚ) < w then (none, [.weightTooHeavy])
      else
        (some { sess with data := { data with weight := some w }, step := "package_category" },
         [.chooseCategory])
  else if sess.step = "send_date" then
    match parseDDMMYYYY text with
    | none => (some sess, [.invalidSendDate])
    | some d =>
      if daysFromCivil d < today then (some sess, [.sendDatePast])
      else
        (some { sess with data := { data with sendDate := formatDDMMYYYY d }, step := "arrival_date" },
         [.enterArrivalDate])
  else if sess.step = "arrival_date" then
    match parseDDMMYYYY text with
    | none => (some sess, [.invalidArrivalDate])
    | some d =>
      if daysFromCivil d < today then (some sess, [.arrivalDatePast])
      else if (data.sendDate != "") &&
          (match parseDDMMYYYY data.sendDate with
           | some sd => decide (daysFromCivil d < daysFromCivil sd)
           | none => false) then (some sess, [.arrivalBeforeSend])
      else
        (some { sess with data := { data with arrivalDate := formatDDMMYYYY d }, step := "selfie_id", expectingPhoto := "selfie_id" },
         [.uploadSelfie])
  else if sess.step = "optional_notes" then
    if sess.waitingForNotes then (some { sess with waitingForNotes := false }, [])
    else if text = "" then (some sess, [.promptNotes])
    else
      (some { sess with data := { data with notes := if lowerString text = "none" then "" else text }, requestId := newReqId, step := "confirm_pending" },
       [.summaryShown])
  else (some sess, [])

end P2

namespace BotJs

/-! ### Operations of `src/bot.js`

bot.js concatenates several rewrites of the bot into one module; duplicate
`function` declarations are hoisted and the later declaration wins, so
the embedded versions below are the runtime-effective ones. -/

/-- `processApprove` (bot.js line 1911, the effective declaration): the
only guard besides existence is already-Approved — a `Rejected` request
passes the guard and is approved. -/
def processApprove (db : DB) (rid invokedBy : String) : DB × Reply :=
  match P2.findEither db rid with
  | none => (db, .requestNotFound)
  | some found =>
    if found.status = .Approved then (db, .alreadyApproved)
    else
      let f := fun r : Req =>
        { r with status := .Approved, adminNote := "Approved by admin " ++ invokedBy }
      (db.setCol found.role (updateFirst (fun r => r.requestId == rid) f (db.colOf found.role)),
       .approvedOk)

/-- `processReject` (bot.js line 1966, the effective declaration): no
status guard at all — any found request, whatever its status, is set to
`Rejected` with `pendingMatchWith` / `matchedWith` / `matchLocked`
unset. -/
def processReject (db : DB) (rid reasonText : String) : DB × Reply :=
  match P2.findEither db rid with
  | none => (db, .requestNotFound)
  | some found =>
    let f := fun r : Req =>
      { r with status := .Rejected, adminNote := reasonText,
               pendingMatchWith := none, matchedWith := none, matchLocked := false }
    (db.setCol found.role (updateFirst (fun r => r.requestId == rid) f (db.colOf found.role)),
     .rejectedOk)

/-! ### The traveler submission flow (bot.js line 1610, the effective
declaration; the earlier full declaration at line 614 is shadowed) -/

structure TravelerData where
  name : String
  phone : String
  email : String
  departure : String
  departureCountry : String
  destination : String
  arrivalCountry : String
  departureTime : String
  arrivalTime : String
  availableWeight : Option ℚ
  passportNumber : String
  notes : String
deriving DecidableEq, Repr

def TravelerData.empty : TravelerData := ⟨"", "", "", "", "", "", "", "", "", none, "", ""⟩

structure TravelerSession where
  step : String
  data : TravelerData
  expectingPhoto : String
  requestId : String
deriving DecidableEq, Repr

structure DateTime where
  date : Date
  hour : Nat
  minute : Nat
deriving DecidableEq, Repr

/-- `moment(txt, 'DD-MM-YY HH:mm', true)` keeping the time of day. -/
def parseDDMMYYHHmmFull (s : String) : Option DateTime :=
  match takeUpTo2Digits s.data with
  | some (d, '-' :: r1) =>
    match takeUpTo2Digits r1 with
    | some (m, '-' :: r2) =>
      match take2DigitYear r2 with
      | some (y, ' ' :: r3) =>
        match takeUpTo2Digits r3 with
        | some (hh, ':' :: r4) =>
          match takeUpTo2Digits r4 with
          | some (mm, []) =>
            if validDate d m y && hh ≤ 23 && mm ≤ 59 then some ⟨⟨d, m, y⟩, hh, mm⟩ else none
          | _ => none
        | _ => none
      | _ => none
    | _ => none
  | _ => none

/-- `moment(dt).format('DD-MM-YY HH:mm')`. -/
def formatDDMMYYHHmm (dt : DateTime) : String :=
  P2.pad2 dt.date.day ++ "-" ++ P2.pad2 dt.date.month ++ "-" ++
    P2.pad2 (dt.date.year % 100) ++ " " ++ P2.pad2 dt.hour ++ ":" ++ P2.pad2 dt.minute

/-- The regex `/^[A-Za-z0-9]{7,9}$/` on the raw text. -/
def isPassportFormat (txt : String) : Bool :=
  txt.data.all (fun c => c.isAlpha || c.isDigit) && 7 ≤ txt.length && txt.length ≤ 9

/-- `handleTravelerTextStep` (bot.js line 1610): the traveler text-step
switch, on the session alone. -/
def handleTravelerTextStep (newReqId : String) (sess : TravelerSession) (text : String) :
    Option TravelerSession × List Msg :=
  let data := sess.data
  if sess.step = "traveler_name" then
    if text.length < 2 then (some sess, [.invalidName])
    else
      (some { sess with data := { data with name := text }, step := "traveler_phone" },
       [.enterPhone])
  else if sess.step = "traveler_phone" then
    if !isValidPhone text then (some sess, [.invalidPhone])
    else
      (some { sess with data := { data with phone := jsTrimString text }, step := "traveler_email" },
       [.enterEmail])
  else if sess.step = "traveler_email" then
    if !isValidEmail text then (some sess, [.invalidEmail])
    else
      (some { sess with data := { data with email := jsTrimString text }, step := "departure_airport" },
       [.enterDepartureAirport])
  else if sess.step = "departure_airport" then
    (some { sess with data := { data with departure := text }, step := "departure_country" },
     [.enterDepartureCountry])
  else if sess.step = "departure_country" then
    (some { sess with data := { data with departureCountry := text }, step := "destination_airport" },
     [.enterDestinationAirport])
  else if sess.step = "destination_airport" then
    (some { sess with data := { data with destination := text }, step := "arrival_country" },
     [.enterArrivalCountry])
  else if sess.step = "arrival_country" then
    (some { sess with data := { data with arrivalCountry := text }, step := "departure_time" },
     [.enterDepartureTime])
  else if sess.step = "departure_time" then
    match parseDDMMYYHHmmFull text with
    | none => (some sess, [.invalidDateTime])
    | some dt =>
      (some { sess with data := { data with departureTime := formatDDMMYYHHmm dt }, step := "arrival_time" },
       [.enterArrivalTime])
  else if sess.step = "arrival_time" then
    match parseDDMMYYHHmmFull text with
    | none => (some sess, [.invalidDateTime])
    | some dt =>
      (some { sess with data := { data with arrivalTime := formatDDMMYYHHmm dt }, step := "available_weight" },
       [.enterAvailableWeight])
  else if sess.step = "available_weight" then
    match extractFirstNumber text with
    | none => (some sess, [.invalidWeightFormat])
    | some w =>
      if w ≤ 0 then (some sess, [.positiveWeightRequired])
      else if (10 : ℚ) < w then (none, [.weightTooHeavy])
      else
        (some { sess with data := { data with availableWeight := some w }, step := "passport_number" },
         [.enterPassport])
  else if sess.step = "passport_number" then
    if !isPassportFormat text then (some sess, [.invalidPassport])
    else
      (some { sess with data := { data with passportNumber := jsTrimString text }, step := "passport_selfie", expectingPhoto := "passport_selfie" },
       [.uploadPassportSelfie])
  else if sess.step = "optional_notes" then
    (some { sess with data := { data with notes := if P2.lowerString text = "none" then "" else text }, requestId := newReqId, step := "confirm_pending" },
     [.summaryShown])
  else (some sess, [])

/-- The runtime-effective `handleSenderTextStep` of bot.js: the module
declares the function twice, and the second declaration (line 1597) has
an empty body — only placeholder comments.  Hoisting makes it shadow the
full declaration at line 515, so every sender text step in bot.js is a
no-op. -/
def handleSenderTextStep (sess : P2.SenderSession) (_text : String) :
    Option P2.SenderSession × List Msg :=
  (some sess, [])

/-! ### The registered `bot.on('message')` listeners of bot.js

bot.js registers three message listeners (lines 379, 1744 and 2423); the
event emitter invokes every one of them, in registration order, for each
inbound text.  Only the two later listeners begin with an
`isUserSuspended` check.  Commands registered through `bot.onText` fire
only for texts matching their command patterns and are outside this
pipeline. -/

/-- One user's in-progress `userSessions[chatId]` entry. -/
inductive Session
  | sender (s : P2.SenderSession)
  | traveler (t : TravelerSession)
  | tracking (step : String)
deriving DecidableEq, Repr

/-- One `adminAuth[fromId]` entry; an absent entry reads as all-false. -/
structure AdminAuth where
  loggedIn : Bool
  superAdmin : Bool
  awaitingPin : Bool
  awaitingCustomReasonFor : Option String
deriving DecidableEq, Repr

def AdminAuth.empty : AdminAuth := ⟨false, false, false, none⟩

/-- Environment configuration read at startup. -/
structure Cfg where
  adminGroupId : Nat
  superAdminId : Nat
  adminPin : String
deriving DecidableEq, Repr

/-- The mutable state the message pipeline touches: the global session
and admin maps, the `suspendedCol` user set, and the record store. -/
structure BotState where
  sessions : List (Nat × Session)
  adminAuth : List (Nat × AdminAuth)
  suspended : List Nat
  db : DB
deriving DecidableEq, Repr

def getSession (st : BotState) (k : Nat) : Option Session := st.sessions.lookup k

def putSession (st : BotState) (k : Nat) : Option Session → BotState
  | none => { st with sessions := st.sessions.filter (fun p => p.1 != k) }
  | some s => { st with sessions := (k, s) :: st.sessions.filter (fun p => p.1 != k) }

def getAuth (st : BotState) (k : Nat) : AdminAuth :=
  (st.adminAuth.lookup k).getD AdminAuth.empty

def putAuth (st : BotState) (k : Nat) (a : AdminAuth) : BotState :=
  { st with adminAuth := (k, a) :: st.adminAuth.filter (fun p => p.1 != k) }

/-- `isUserSuspended` (bot.js line 1133): membership in `suspendedCol`. -/
def isUserSuspended (st : BotState) (uid : Nat) : Bool := st.suspended.contains uid

/-- `sendersCol.findOne({'data.phone'}) || travelersCol.findOne(...)`. -/
def findByPhone (db : DB) (phone : String) : Option Req :=
  match db.senders.find? (fun r => r.phone == phone) with
  | some r => some r
  | none => db.travelers.find? (fun r => r.phone == phone)

/-- `findActiveMatchForUser` (bot.js line 2217): the user's locked,
matched document; when both collections hold one, the source picks by
`matchFinalizedAt`, a timestamp this model does not carry, preferring the
sender document on ties — the model keeps the sender document. -/
def findActiveMatchForUser (db : DB) (uid : Nat) : Option Req :=
  match db.senders.find? (fun r => r.userId == uid && r.matchLocked && r.matchedWith.isSome) with
  | some r => some r
  | none => db.travelers.find? (fun r => r.userId == uid && r.matchLocked && r.matchedWith.isSome)

/-- `tryForwardChatMessage` (bot.js line 2241): pure reads; `true` means
the text was relayed to the matched partner and mirrored to the admin
group. -/
def tryForwardChatMessage (cfg : Cfg) (st : BotState) (chatId : Nat) :
    Bool × List Msg :=
  if isUserSuspended st chatId then (false, [])
  else if chatId = cfg.adminGroupId then (false, [])
  else
    match findActiveMatchForUser st.db chatId with
    | none => (false, [])
    | some myDoc =>
      match myDoc.matchedWith with
      | none => (false, [])
      | some mid =>
        match findReq (st.db.colOf myDoc.role.other) mid with
        | none => (false, [])
        | some _ => (true, [.forwardedToPartner, .forwardedToAdmin])

/-- The session-routing tail of the first message listener
(bot.js lines 425–455). -/
def routeSession379 (newReqId : String) (st : BotState) (chatId : Nat) (text : String) :
    BotState × List Msg :=
  match getSession st chatId with
  | none => (st, [])
  | some (.tracking stp) =>
    if stp = "tracking_phone" then
      if !isValidPhone text then (st, [.invalidPhone])
      else
        match findByPhone st.db text with
        | none => (st, [.noRecordFound])
        | some _ => (st, [.trackingStatus])
    else (st, [])
  | some (.sender s) =>
    let res := handleSenderTextStep s text
    (putSession st chatId (res.1.map Session.sender), res.2)
  | some (.traveler t) =>
    let res := handleTravelerTextStep newReqId t text
    (putSession st chatId (res.1.map Session.traveler), res.2)

/-- The first registered message listener (bot.js line 379): admin login
branches, then session routing.  It performs no suspension check. -/
def onMessage379 (cfg : Cfg) (newReqId : String) (st : BotState)
    (chatId fromId : Nat) (rawText : String) : BotState × List Msg :=
  let text := jsTrimString rawText
  if text = "/admin" then
    if fromId = cfg.superAdminId then
      (putAuth st fromId ⟨true, true, false, none⟩, [.superAdminGranted])
    else if chatId = cfg.adminGroupId then
      (putAuth st fromId ⟨false, false, true, none⟩, [.askPin])
    else (st, [.notAuthorizedAdmin])
  else if chatId = cfg.adminGroupId && (getAuth st fromId).awaitingPin then
    if text = cfg.adminPin then
      (putAuth st fromId ⟨true, false, false, none⟩, [.loginOk])
    else (putAuth st fromId ⟨false, false, false, none⟩, [.invalidPin])
  else if chatId = cfg.adminGroupId && ((getAuth st fromId).awaitingCustomReasonFor).isSome then
    match (getAuth st fromId).awaitingCustomReasonFor with
    | some reqId =>
      let reasonText := "Rejected: " ++ (if text = "" then "Rejected by admin" else text)
      let res := processReject st.db reqId reasonText
      (putAuth { st with db := res.1 } fromId
        { getAuth st fromId with awaitingCustomReasonFor := none }, [.rejectionSent])
    | none => (st, [])
  else routeSession379 newReqId st chatId text

/-- The second registered message listener (bot.js line 1744): suspension
gate, then admin PIN entry and the custom rejection reason. -/
def onMessage1744 (cfg : Cfg) (st : BotState) (chatId fromId : Nat) (rawText : String) :
    BotState × List Msg :=
  let text := jsTrimString rawText
  if isUserSuspended st chatId && chatId ≠ cfg.adminGroupId then
    (st, [.suspendedNotice])
  else if chatId = cfg.adminGroupId && (getAuth st fromId).awaitingPin then
    if text = cfg.adminPin then
      (putAuth st fromId ⟨true, false, false, none⟩, [.loginOk])
    else (putAuth st fromId ⟨false, false, false, none⟩, [.invalidPin])
  else if chatId = cfg.adminGroupId && ((getAuth st fromId).awaitingCustomReasonFor).isSome then
    match (getAuth st fromId).awaitingCustomReasonFor with
    | some reqId =>
      let st2 := putAuth st fromId { getAuth st fromId with awaitingCustomReasonFor := none }
      let res := processReject st2.db reqId ("Rejected: " ++ text)
      ({ st2 with db := res.1 }, [.rejectionSent])
    | none => (st, [])
  else (st, [])

/-- The third registered message listener (bot.js line 2423): suspension
gate, then session routing and, failing that, relay of non-command text
to the matched partner. -/
def onMessage2423 (cfg : Cfg) (newReqId : String) (st : BotState)
    (chatId _fromId : Nat) (rawText : String) : BotState × List Msg :=
  let text := jsTrimString rawText
  if isUserSuspended st chatId && chatId ≠ cfg.adminGroupId then
    (st, [.suspendedNotice])
  else
    match getSession st chatId with
    | some (.sender s) =>
      let res := handleSenderTextStep s text
      (putSession st chatId (res.1.map Session.sender), res.2)
    | some (.traveler t) =>
      let res := handleTravelerTextStep newReqId t text
      (putSession st chatId (res.1.map Session.traveler), res.2)
    | some (.tracking stp) =>
      if stp = "tracking_phone" then
        if !isValidPhone text then (st, [.invalidPhone])
        else
          match findByPhone st.db text with
          | none => (st, [.noRecordFound])
          | some _ => (st, [.trackingStatus])
      else if !(text.startsWith "/") then (st, (tryForwardChatMessage cfg st chatId).2)
      else (st, [])
    | none =>
      if !(text.startsWith "/") then (st, (tryForwardChatMessage cfg st chatId).2)
      else (st, [])

/-- One inbound text event as bot.js processes it: all three registered
message listeners run, in registration order, each seeing the state the
previous one left. -/
def dispatchMessage (cfg : Cfg) (newReqId : String) (st : BotState)
    (chatId fromId : Nat) (text : String) : BotState × List Msg :=
  let r1 := onMessage379 cfg newReqId st chatId fromId text
  let r2 := onMessage1744 cfg r1.1 chatId fromId text
  let r3 := onMessage2423 cfg newReqId r2.1 chatId fromId text
  (r3.1, r1.2 ++ r2.2 ++ r3.2)

end BotJs

/-! ## Claim theorems -/

/-- `airportsMatch` answers true exactly on identical non-empty
normalized forms. -/
theorem airportsMatch_iff (a b : String) :
    airportsMatch a b = true ↔
      (normalizeAirportName a = normalizeAirportName b ∧ normalizeAirportName a ≠ "") := by
  have key : ∀ na nb : String,
      ((!(na = "") && !(nb = "") && na = nb) = true) ↔ (na = nb ∧ na ≠ "") := by
    intro na nb
    constructor
    · intro h
      simp only [Bool.and_eq_true, Bool.not_eq_true', decide_eq_false_iff_not,
        decide_eq_true_eq] at h
      exact ⟨h.2, h.1.1⟩
    · intro h
      simp only [Bool.and_eq_true, Bool.not_eq_true', decide_eq_false_iff_not,
        decide_eq_true_eq]
      exact ⟨⟨h.2, h.1 ▸ h.2⟩, h.1⟩
  exact key (normalizeAirportName a) (normalizeAirportName b)

/-- C4 counterexample: the claim's "strips the whole-word tokens" and
"same location iff normalized forms are identical strings" both fail on
the code.  A leading token is not stripped (the regexes require
whitespace before the token), and two whitespace-only names normalize to
the same (empty) string yet are not considered the same location. -/
theorem c4_counterexample :
    normalizeAirportName "INTL DELHI" = "INTL DELHI" ∧
    normalizeAirportNameSpec "INTL DELHI" = "DELHI" ∧
    normalizeAirportName " " = normalizeAirportName " " ∧
    airportsMatch " " " " = false := by
  refine ⟨by decide, by decide, rfl, by decide⟩

/-- C4 (amended): normalization trims, uppercases, collapses whitespace
runs, and strips AIRPORT, INTL, INTERNATIONAL only where preceded by
whitespace; two airport names are the same location iff their normalized
forms are identical and non-empty; in particular "Mumbai International"
and "MUMBAI" are the same location. -/
theorem c4_airport_normalization :
    (∀ a b : String,
      airportsMatch a b = true ↔
        (normalizeAirportName a = normalizeAirportName b ∧ normalizeAirportName a ≠ "")) ∧
    normalizeAirportName "Mumbai International" = "MUMBAI" ∧
    normalizeAirportName " mumbai   intl  Airport " = "MUMBAI" ∧
    airportsMatch "Mumbai International" "MUMBAI" = true := by
  exact ⟨airportsMatch_iff, by decide, by decide, by decide⟩

/-- C3 counterexample: with every required field present in the code's
own (truthiness) sense, the claim's "compatible iff normalized airports
equal, weight within 2 kg, dates within 1 day, neither locked" fails:
whitespace-only location fields are present and normalize identically,
the weights and dates are in tolerance and nothing is locked, yet the
check answers false (its airport comparison also demands non-empty
normalized names). -/
theorem c3_counterexample :
    isSenderTravelerCompatible
        ⟨"snd1", " ", "DELHI", some (mkRat 5 1), "05-01-2030", false⟩
        ⟨"trv1", " ", "DELHI", "06-01-2030 09:00", some (mkRat 6 1), false⟩ = false ∧
    (" " : String) ≠ "" ∧
    normalizeAirportName " " = normalizeAirportName " " ∧
    normalizeAirportName "DELHI" = normalizeAirportName "DELHI" ∧
    isWeightCompatible (some (mkRat 5 1)) (some (mkRat 6 1)) = true ∧
    areDatesClose "05-01-2030" "06-01-2030 09:00" = true := by
  refine ⟨by decide, by decide, rfl, rfl, by decide, by decide⟩

/-- C3 (amended): for snapshots whose required fields are present, whose
dates parse in the strict formats, and whose normalized airport names are
non-empty, compatibility holds iff the normalized airports agree in both
positions, the weights are within 2 kg inclusive, the dates are at most
one calendar day apart, and neither side is locked. -/
theorem c3_compatibility (s : SenderSnap) (t : TravelerSnap) (ws wt : ℚ) (d1 d2 : Date)
    (hp1 : s.pickup ≠ "") (hp2 : s.destination ≠ "") (hp3 : s.sendDate ≠ "")
    (hp4 : t.departure ≠ "") (hp5 : t.destination ≠ "") (hp6 : t.departureTime ≠ "")
    (hw1 : s.weight = some ws) (hw2 : t.availableWeight = some wt)
    (hd1 : parseDDMMYYYY s.sendDate = some d1)
    (hd2 : parseDDMMYYYYHHmm t.departureTime = some d2)
    (hn1 : normalizeAirportName s.pickup ≠ "")
    (hn2 : normalizeAirportName s.destination ≠ "") :
    isSenderTravelerCompatible s t = true ↔
      (normalizeAirportName s.pickup = normalizeAirportName t.departure ∧
       normalizeAirportName s.destination = normalizeAirportName t.destination ∧
       |ws - wt| ≤ 2 ∧
       |daysFromCivil d2 - daysFromCivil d1| ≤ 1 ∧
       s.matchLocked = false ∧ t.matchLocked = false) := by
  have unf : isSenderTravelerCompatible s t =
      (airportsMatch s.pickup t.departure &&
       (airportsMatch s.destination t.destination &&
        (isWeightCompatible s.weight t.availableWeight &&
         (areDatesClose s.sendDate t.departureTime &&
          !(s.matchLocked || t.matchLocked))))) := by
    simp only [isSenderTravelerCompatible]
    rw [if_neg (by simp [hp1, hp2, hp3]), if_neg (by simp [hp4, hp5, hp6])]
    cases h1 : airportsMatch s.pickup t.departure <;>
      cases h2 : airportsMatch s.destination t.destination <;>
      cases h3 : isWeightCompatible s.weight t.availableWeight <;>
      cases h4 : areDatesClose s.sendDate t.departureTime <;>
      cases h5 : s.matchLocked <;> cases h6 : t.matchLocked <;>
      simp [h1, h2, h3, h4, h5, h6]
  have dates : areDatesClose s.sendDate t.departureTime = true ↔
      |daysFromCivil d2 - daysFromCivil d1| ≤ 1 := by
    simp [areDatesClose, hp3, hp6, hd1, hd2]
  rw [unf]
  simp only [Bool.and_eq_true, Bool.not_eq_true', Bool.or_eq_false_iff]
  rw [airportsMatch_iff, airportsMatch_iff, hw1, hw2, isWeightCompatible_some, dates]
  simp [hn1, hn2, and_assoc]

/-- C3 witness at the spec's own scenario: Mumbai International vs MUMBAI,
5 kg against 6 kg capacity, ship and departure dates one day apart. -/
theorem c3_compatibility_witness :
    isSenderTravelerCompatible
        ⟨"s1", "Mumbai International", "Delhi", some (mkRat 5 1), "05-01-2030", false⟩
        ⟨"t1", "MUMBAI", "Delhi", "06-01-2030 09:00", some (mkRat 6 1), false⟩ = true := by
  refine (c3_compatibility _ _ (mkRat 5 1) (mkRat 6 1) ⟨5, 1, 2030⟩ ⟨6, 1, 2030⟩
    (by decide) (by decide) (by decide) (by decide) (by decide) (by decide)
    rfl rfl (by decide) (by decide) (by decide) (by decide)).mpr ?_
  refine ⟨by decide, by decide, ?_, ?_, rfl, rfl⟩
  · rw [← ratSub_eq, ← ratAbs_eq]; decide
  · decide

/-! ### Role and collection bookkeeping -/

theorem Role.other_other (role : Role) : role.other.other = role := by
  cases role <;> rfl

theorem DB.colOf_setCol_same (db : DB) (role : Role) (l : List Req) :
    (db.setCol role l).colOf role = l := by
  cases role <;> rfl

theorem DB.colOf_setCol_other (db : DB) (role : Role) (l : List Req) :
    (db.setCol role l).colOf role.other = db.colOf role.other := by
  cases role <;> rfl

theorem DB.colOf_setCol_other_same (db : DB) (role : Role) (l : List Req) :
    (db.setCol role.other l).colOf role = db.colOf role := by
  cases role <;> rfl

theorem mem_colOf_allReqs {db : DB} {role : Role} {r : Req} (h : r ∈ db.colOf role) :
    r ∈ db.allReqs := by
  cases role
  · exact List.mem_append.mpr (Or.inl h)
  · exact List.mem_append.mpr (Or.inr h)

theorem mem_allReqs_setCol {db : DB} {role : Role} {l : List Req} {r : Req}
    (hr : r ∈ (db.setCol role l).allReqs) : r ∈ l ∨ r ∈ db.allReqs := by
  cases role
  · rcases List.mem_append.mp hr with h | h
    · exact Or.inl h
    · exact Or.inr (List.mem_append.mpr (Or.inr h))
  · rcases List.mem_append.mp hr with h | h
    · exact Or.inr (List.mem_append.mpr (Or.inl h))
    · exact Or.inl h

/-- Under the guard conditions of a successful confirmation, the decision
of `handleUserMatchConfirm` is lock exactly when the counterpart's
`pendingMatchWith` already names the confirmer. -/
theorem confirmDecide_happy (db : DB) (role : Role) (rid orid : String) (uid : Nat)
    (X Y : Req)
    (hX : findReq (db.colOf role) rid = some X)
    (hY : findReq (db.colOf role.other) orid = some Y)
    (hown : X.userId = uid)
    (hXs : X.status = Status.Approved) (hYs : Y.status = Status.Approved)
    (hXl : X.matchLocked = false) (hYl : Y.matchLocked = false)
    (hXp : X.pendingMatchWith = none ∨ X.pendingMatchWith = some orid) :
    P2.confirmDecide db role rid orid uid =
      (if Y.pendingMatchWith = some rid then .lockPair else .firstConfirm) := by
  have g4 : (match X.pendingMatchWith with
             | some p => p != orid
             | none => false) = false := by
    rcases hXp with h | h <;> simp [h]
  unfold P2.confirmDecide
  rw [hX, hY]
  simp [hown, hXs, hYs, hXl, hYl, g4]

/-- C1 (amended): the double-confirmation protocol as the code implements
it, with the guard the claim omits made explicit — the confirmer's own
`pendingMatchWith` must be null or already equal to the candidate
(otherwise the confirmation is refused with no effect; see the
counterexample).  First confirmation: only X's `pendingMatchWith` is set
and nothing becomes locked.  Second confirmation: both records are
locked, `matchedWith` is set to each other and `pendingMatchWith` is
cleared on both. -/
theorem c1_double_confirmation (db : DB) (role : Role) (rid orid : String) (uid : Nat)
    (X Y : Req)
    (hX : findReq (db.colOf role) rid = some X)
    (hY : findReq (db.colOf role.other) orid = some Y)
    (hown : X.userId = uid)
    (hXs : X.status = Status.Approved) (hYs : Y.status = Status.Approved)
    (hXl : X.matchLocked = false) (hYl : Y.matchLocked = false)
    (hXp : X.pendingMatchWith = none ∨ X.pendingMatchWith = some orid) :
    (Y.pendingMatchWith ≠ some rid →
      (P2.handleUserMatchConfirm db role rid orid uid).2 = Reply.confirmationSent ∧
      (P2.handleUserMatchConfirm db role rid orid uid).1 =
        db.setCol role (updateFirst (fun r => r.requestId == rid)
          (fun r => { r with pendingMatchWith := some orid }) (db.colOf role)) ∧
      findReq ((P2.handleUserMatchConfirm db role rid orid uid).1.colOf role) rid =
        some { X with pendingMatchWith := some orid } ∧
      (P2.handleUserMatchConfirm db role rid orid uid).1.colOf role.other =
        db.colOf role.other ∧
      (∀ r, r ∈ ((P2.handleUserMatchConfirm db role rid orid uid).1).allReqs →
        r.matchLocked = true → r ∈ db.allReqs)) ∧
    (Y.pendingMatchWith = some rid →
      (P2.handleUserMatchConfirm db role rid orid uid).2 = Reply.matchConfirmed ∧
      findReq ((P2.handleUserMatchConfirm db role rid orid uid).1.colOf role) rid =
        some { X with matchLocked := true, matchedWith := some orid, pendingMatchWith := none } ∧
      findReq ((P2.handleUserMatchConfirm db role rid orid uid).1.colOf role.other) orid =
        some { Y with matchLocked := true, matchedWith := some rid, pendingMatchWith := none }) := by
  have hdec := confirmDecide_happy db role rid orid uid X Y hX hY hown hXs hYs hXl hYl hXp
  constructor
  · intro hne
    have hd : P2.confirmDecide db role rid orid uid = .firstConfirm := by
      rw [hdec, if_neg hne]
    have hres : P2.handleUserMatchConfirm db role rid orid uid =
        (db.setCol role (updateFirst (fun r => r.requestId == rid)
          (fun r => { r with pendingMatchWith := some orid }) (db.colOf role)),
         Reply.confirmationSent) := by
      rw [P2.handleUserMatchConfirm, hd]
      rfl
    rw [hres]
    refine ⟨rfl, rfl, ?_, DB.colOf_setCol_other db role _, ?_⟩
    · rw [DB.colOf_setCol_same]
      rw [P2.findReq_updateFirst _ (fun r => by rfl) rid, hX]
      rfl
    · intro r hr hlock
      rcases mem_allReqs_setCol hr with hr | hr
      · rcases P2.mem_updateFirst hr with hr | ⟨w, hw, hrw⟩
        · exact mem_colOf_allReqs hr
        · have hw2 : findReq (db.colOf role) rid = some w := hw
          rw [hX] at hw2
          cases hw2
          rw [hrw] at hlock
          exact absurd (hXl ▸ hlock) (by simp)
      · exact hr
  · intro heq
    have hd : P2.confirmDecide db role rid orid uid = .lockPair := by
      rw [hdec, if_pos heq]
    have hres : P2.handleUserMatchConfirm db role rid orid uid =
        ((db.setCol role (updateFirst (fun r => r.requestId == rid)
            (fun r => { r with matchLocked := true, matchedWith := some orid, pendingMatchWith := none }) (db.colOf role))).setCol role.other
          (updateFirst (fun r => r.requestId == orid)
            (fun r => { r with matchLocked := true, matchedWith := some rid, pendingMatchWith := none })
            ((db.setCol role (updateFirst (fun r => r.requestId == rid)
              (fun r => { r with matchLocked := true, matchedWith := some orid, pendingMatchWith := none }) (db.colOf role))).colOf role.other)),
         Reply.matchConfirmed) := by
      rw [P2.handleUserMatchConfirm, hd]
      rfl
    rw [hres]
    refine ⟨rfl, ?_, ?_⟩
    · rw [DB.colOf_setCol_other_same, DB.colOf_setCol_same]
      rw [P2.findReq_updateFirst _ (fun r => by rfl) rid, hX]
      rfl
    · rw [DB.colOf_setCol_same, DB.colOf_setCol_other]
      rw [P2.findReq_updateFirst _ (fun r => by rfl) orid, hY]
      rfl

/-- A request record with the fields the lifecycle operations touch. -/
def exReq (rid : String) (uid : Nat) (role : Role) (st : Status) (locked : Bool)
    (pending matched : Option String) : Req :=
  { requestId := rid, userId := uid, role := role, status := st, adminNote := "",
    matchLocked := locked, pendingMatchWith := pending, matchedWith := matched,
    chatTerminated := false, terminationReason := "", phone := "" }

/-- One Approved, unlocked sender whose `pendingMatchWith` already names a
third request, and one Approved, unlocked traveler with no pending
reference. -/
def c1db : DB :=
  ⟨[exReq "s1" 1 .sender .Approved false (some "t9") none],
   [exReq "t1" 2 .traveler .Approved false none none]⟩

/-- C1 counterexample: both requests exist, both are Approved and
unlocked, the caller owns the confirming request, and the candidate's
`pendingMatchWith` does not name the confirmer — so the claim says the
operation sets the confirmer's `pendingMatchWith` to the candidate.  The
code instead refuses the confirmation ("You already confirmed another
match") and changes nothing, because the confirmer's own
`pendingMatchWith` already names a different request. -/
theorem c1_counterexample :
    P2.handleUserMatchConfirm c1db .sender "s1" "t1" 1 =
      (c1db, Reply.alreadyConfirmedAnother) ∧
    (findReq c1db.senders "s1").map
        (fun r => (r.status, r.matchLocked, r.userId, r.pendingMatchWith)) =
      some (Status.Approved, false, 1, some "t9") ∧
    (findReq c1db.travelers "t1").map
        (fun r => (r.status, r.matchLocked, r.pendingMatchWith)) =
      some (Status.Approved, false, none) := by
  decide

/-- Two fresh Approved, unlocked requests with no pending references. -/
def c1db2 : DB :=
  ⟨[exReq "s1" 1 .sender .Approved false none none],
   [exReq "t1" 2 .traveler .Approved false none none]⟩

theorem c1_double_confirmation_witness :
    (P2.handleUserMatchConfirm c1db2 .sender "s1" "t1" 1).2 = Reply.confirmationSent :=
  ((c1_double_confirmation c1db2 .sender "s1" "t1" 1
      (exReq "s1" 1 .sender .Approved false none none)
      (exReq "t1" 2 .traveler .Approved false none none)
      (by decide) (by decide) rfl rfl rfl rfl rfl (Or.inl rfl)).1 (by decide)).1

/-- C7: whenever either referenced request is missing, either is no
longer Approved, either is already locked, or the caller does not own the
confirming request, the confirm handler leaves the store untouched and
answers one of the four refusal notices. -/
theorem c7_confirm_guards (db : DB) (role : Role) (rid orid : String) (uid : Nat)
    (h : ∀ X Y, findReq (db.colOf role) rid = some X →
         findReq (db.colOf role.other) orid = some Y →
         X.userId ≠ uid ∨ X.status ≠ Status.Approved ∨ Y.status ≠ Status.Approved ∨
         X.matchLocked = true ∨ Y.matchLocked = true) :
    (P2.handleUserMatchConfirm db role rid orid uid).1 = db ∧
    ((P2.handleUserMatchConfirm db role rid orid uid).2 = Reply.matchNotFound ∨
     (P2.handleUserMatchConfirm db role rid orid uid).2 = Reply.notForYou ∨
     (P2.handleUserMatchConfirm db role rid orid uid).2 = Reply.notApprovedAnymore ∨
     (P2.handleUserMatchConfirm db role rid orid uid).2 = Reply.alreadyMatched) := by
  unfold P2.handleUserMatchConfirm P2.confirmDecide
  cases hX : findReq (db.colOf role) rid with
  | none => exact ⟨rfl, Or.inl rfl⟩
  | some X =>
    cases hY : findReq (db.colOf role.other) orid with
    | none => exact ⟨rfl, Or.inl rfl⟩
    | some Y =>
      by_cases g1 : X.userId ≠ uid
      · simp [g1, P2.confirmApply]
      · by_cases g2 : X.status ≠ Status.Approved ∨ Y.status ≠ Status.Approved
        · simp [g1, g2, P2.confirmApply]
        · cases g3 : (X.matchLocked || Y.matchLocked) with
          | true => simp [g1, g2, g3, P2.confirmApply]
          | false =>
            exfalso
            push_neg at g1 g2
            rcases h X Y hX hY with h1 | h1 | h1 | h1 | h1
            · exact h1 g1
            · exact h1 g2.1
            · exact h1 g2.2
            · rw [h1] at g3; simp at g3
            · rw [h1] at g3; simp at g3

theorem c7_confirm_guards_witness :
    (P2.handleUserMatchConfirm (⟨[], []⟩ : DB) .sender "a" "b" 0).1 = (⟨[], []⟩ : DB) :=
  (c7_confirm_guards ⟨[], []⟩ .sender "a" "b" 0
    (fun X Y hX _ => by simp [findReq, DB.colOf] at hX)).1

/-- An Approved sender with a live pending reference, as a store. -/
def c5db : DB := ⟨[exReq "s1" 1 .sender .Approved false (some "t9") none], []⟩

/-- C5 counterexample: the claim covers "every request in any status —
including an Approved request that currently has pendingMatchWith set",
but part_002's `processReject` refuses to reject an Approved request
("Already approved; cannot reject.") and leaves its live match fields
untouched. -/
theorem c5_counterexample :
    P2.processReject c5db "s1" "spam" = (c5db, Reply.cannotRejectApproved) ∧
    (findReq c5db.senders "s1").map (fun r => (r.status, r.pendingMatchWith)) =
      some (Status.Approved, some "t9") := by
  decide

/-- C5 (amended): when part_002's `processReject` does reject — the found
request is neither already Approved nor already Rejected — it sets
`status=Rejected` with the reason as note and clears `pendingMatchWith`,
`matchedWith` and `matchLocked`; an already-Approved or already-Rejected
request is refused with no mutation; bot.js's `processReject` performs
the same clearing write for a found request of any status. -/
theorem c5_reject_clears :
    (∀ (db : DB) (rid reason : String) (f : Req),
      P2.findEither db rid = some f →
      findReq (db.colOf f.role) rid = some f →
      f.status ≠ Status.Approved → f.status ≠ Status.Rejected →
      (P2.processReject db rid reason).2 = Reply.rejectedOk ∧
      findReq ((P2.processReject db rid reason).1.colOf f.role) rid =
        some { f with status := Status.Rejected, adminNote := reason, pendingMatchWith := none, matchedWith := none, matchLocked := false }) ∧
    (∀ (db : DB) (rid reason : String) (f : Req),
      P2.findEither db rid = some f →
      f.status = Status.Approved ∨ f.status = Status.Rejected →
      P2.processReject db rid reason =
        (db, if f.status = Status.Rejected then Reply.alreadyRejected
             else Reply.cannotRejectApproved)) ∧
    (∀ (db : DB) (rid reason : String) (f : Req),
      P2.findEither db rid = some f →
      findReq (db.colOf f.role) rid = some f →
      (BotJs.processReject db rid reason).2 = Reply.rejectedOk ∧
      findReq ((BotJs.processReject db rid reason).1.colOf f.role) rid =
        some { f with status := Status.Rejected, adminNote := reason, pendingMatchWith := none, matchedWith := none, matchLocked := false }) := by
  refine ⟨?_, ?_, ?_⟩
  · intro db rid reason f hfe hcol hA hR
    have hres : P2.processReject db rid reason =
        (db.setCol f.role (updateFirst (fun r => r.requestId == rid)
          (fun r => { r with status := Status.Rejected, adminNote := reason, pendingMatchWith := none, matchedWith := none, matchLocked := false }) (db.colOf f.role)), Reply.rejectedOk) := by
      simp only [P2.processReject, hfe]
      rw [if_neg hR, if_neg hA]
    rw [hres]
    refine ⟨rfl, ?_⟩
    rw [DB.colOf_setCol_same, P2.findReq_updateFirst _ (fun r => by rfl) rid, hcol]
    rfl
  · intro db rid reason f hfe hstat
    rcases hstat with h | h
    · have hne : f.status ≠ Status.Rejected := by rw [h]; simp
      simp only [P2.processReject, hfe]
      rw [if_neg hne, if_pos h, if_neg hne]
    · simp only [P2.processReject, hfe]
      rw [if_pos h, if_pos h]
  · intro db rid reason f hfe hcol
    have hres : BotJs.processReject db rid reason =
        (db.setCol f.role (updateFirst (fun r => r.requestId == rid)
          (fun r => { r with status := Status.Rejected, adminNote := reason, pendingMatchWith := none, matchedWith := none, matchLocked := false }) (db.colOf f.role)), Reply.rejectedOk) := by
      simp only [BotJs.processReject, hfe]
    rw [hres]
    refine ⟨rfl, ?_⟩
    rw [DB.colOf_setCol_same, P2.findReq_updateFirst _ (fun r => by rfl) rid, hcol]
    rfl

/-- A Pending request carrying stale match fields, as a store. -/
def c5db2 : DB := ⟨[exReq "s2" 1 .sender .Pending false (some "x") (some "y")], []⟩

theorem c5_reject_clears_witness :
    findReq ((P2.processReject c5db2 "s2" "bad").1.colOf Role.sender) "s2" =
      some { exReq "s2" 1 Role.sender Status.Rejected false none none with adminNote := "bad" } :=
  (c5_reject_clears.1 c5db2 "s2" "bad"
    (exReq "s2" 1 .sender .Pending false (some "x") (some "y"))
    (by decide) (by decide) (by decide) (by decide)).2

/-- A Rejected sender request, as a store. -/
def c6db : DB := ⟨[exReq "s1" 1 .sender .Rejected false none none], []⟩

/-- C6 counterexample: bot.js's effective `processApprove` guards only
against already-Approved requests; approving an already-Rejected request
is not a no-op — it flips the stored status to Approved. -/
theorem c6_counterexample :
    (BotJs.processApprove c6db "s1" "adm").2 = Reply.approvedOk ∧
    (findReq (BotJs.processApprove c6db "s1" "adm").1.senders "s1").map
        (fun r => r.status) = some Status.Approved ∧
    (findReq c6db.senders "s1").map (fun r => r.status) = some Status.Rejected := by
  decide

/-- C6 (amended): part_002's `processApprove` treats both already-Approved
and already-Rejected requests as no-ops answered with the matching
"already" notice; bot.js's effective `processApprove` gives that
treatment only to already-Approved requests (see the counterexample for
its behaviour on a Rejected one). -/
theorem c6_approve_noop :
    (∀ (db : DB) (rid invokedBy : String) (f : Req),
      P2.findEither db rid = some f →
      f.status = Status.Approved ∨ f.status = Status.Rejected →
      P2.processApprove db rid invokedBy =
        (db, if f.status = Status.Approved then Reply.alreadyApproved
             else Reply.alreadyRejected)) ∧
    (∀ (db : DB) (rid invokedBy : String) (f : Req),
      P2.findEither db rid = some f →
      f.status = Status.Approved →
      BotJs.processApprove db rid invokedBy = (db, Reply.alreadyApproved)) := by
  constructor
  · intro db rid invokedBy f hfe hstat
    rcases hstat with h | h
    · simp only [P2.processApprove, hfe]
      rw [if_pos h, if_pos h]
    · have hne : f.status ≠ Status.Approved := by rw [h]; simp
      simp only [P2.processApprove, hfe]
      rw [if_neg hne, if_pos h, if_neg hne]
  · intro db rid invokedBy f hfe h
    simp only [BotJs.processApprove, hfe]
    rw [if_pos h]

/-- An Approved sender request, as a store. -/
def c6db2 : DB := ⟨[exReq "s1" 1 .sender .Approved false none none], []⟩

theorem c6_approve_noop_witness :
    P2.processApprove c6db2 "s1" "adm" = (c6db2, Reply.alreadyApproved) :=
  c6_approve_noop.1 c6db2 "s1" "adm" (exReq "s1" 1 .sender .Approved false none none)
    (by decide) (Or.inl rfl)

/-- C2 (amended): the mutual-exclusion half of the invariant — no record
is ever locked while holding a pending reference — is preserved by every
operation and holds in every reachable store; the full invariant
(`matchLocked=true` implies `matchedWith` present) is preserved by every
operation except terminate, which unsets `matchedWith` and
`pendingMatchWith` while leaving `matchLocked` set. -/
theorem c2_state_invariant :
    (∀ (db : DB) (op : P2.Op), P2.dbMutex db = true → P2.dbMutex (P2.step db op) = true) ∧
    (∀ ops : List P2.Op, P2.dbMutex (P2.run ops) = true) ∧
    (∀ (db : DB) (op : P2.Op), op.isTerminate = false → P2.dbInv db = true →
      P2.dbInv (P2.step db op) = true) :=
  ⟨P2.step_mutex, P2.run_mutex, P2.step_inv_of_not_terminate⟩

theorem c2_state_invariant_witness :
    P2.dbMutex (P2.step DB.empty (P2.Op.submitSender "s1" 1)) = true ∧
    P2.dbInv (P2.step DB.empty (P2.Op.submitSender "s1" 1)) = true :=
  ⟨c2_state_invariant.1 DB.empty (P2.Op.submitSender "s1" 1) (by decide),
   c2_state_invariant.2.2 DB.empty (P2.Op.submitSender "s1" 1) (by decide) (by decide)⟩

/-- Submit a pair, approve both, confirm twice so the match locks, then
terminate the sender's user. -/
def c2trace : List P2.Op :=
  [P2.Op.submitSender "s1" 1, P2.Op.submitTraveler "t1" 2,
   P2.Op.approve "s1" "adm", P2.Op.approve "t1" "adm",
   P2.Op.confirm .sender "s1" "t1" 1, P2.Op.confirm .traveler "t1" "s1" 2,
   P2.Op.terminate 1 "dispute"]

/-- C2 counterexample: after the admin `/terminate`, the sender's record
is reachable with `matchLocked=true` yet `matchedWith` absent, because
terminate unsets `matchedWith`/`pendingMatchWith` but not `matchLocked` —
the claimed invariant fails on a reachable store. -/
theorem c2_counterexample :
    P2.dbInv (P2.run c2trace) = false ∧
    (findReq (P2.run c2trace).senders "s1").map
        (fun r => (r.matchLocked, r.matchedWith, r.pendingMatchWith)) =
      some (true, none, none) := by
  decide

/-- A `lockPair` decision presupposes both documents were found, Approved
and unlocked at read time. -/
theorem confirmDecide_lockPair_elim (db : DB) (role : Role) (rid orid : String) (uid : Nat)
    (hd : P2.confirmDecide db role rid orid uid = .lockPair) :
    ∃ X Y, findReq (db.colOf role) rid = some X ∧
      findReq (db.colOf role.other) orid = some Y ∧
      X.status = Status.Approved ∧ Y.status = Status.Approved ∧
      X.matchLocked = false ∧ Y.matchLocked = false := by
  cases hX : findReq (db.colOf role) rid with
  | none => simp [P2.confirmDecide, hX] at hd
  | some X =>
    cases hY : findReq (db.colOf role.other) orid with
    | none => simp [P2.confirmDecide, hX, hY] at hd
    | some Y =>
      by_cases g1 : X.userId ≠ uid
      · simp [P2.confirmDecide, hX, hY, g1] at hd
      · by_cases g2 : X.status ≠ Status.Approved ∨ Y.status ≠ Status.Approved
        · simp [P2.confirmDecide, hX, hY, g1, g2] at hd
        · push_neg at g2
          cases g3 : (X.matchLocked || Y.matchLocked) with
          | true => simp [P2.confirmDecide, hX, hY, g1, g2.1, g2.2, g3] at hd
          | false =>
            have l1 : X.matchLocked = false := by
              cases hv : X.matchLocked
              · rfl
              · rw [hv] at g3; simp at g3
            have l2 : Y.matchLocked = false := by
              cases hv : Y.matchLocked
              · rfl
              · rw [hv] at g3; simp at g3
            exact ⟨X, Y, rfl, rfl, g2.1, g2.2, l1, l2⟩

theorem confirmApply_lockPair_colOf_other (db : DB) (role : Role) (rid orid : String) :
    (P2.confirmApply db role rid orid .lockPair).1.colOf role.other =
      updateFirst (fun r => r.requestId == orid)
        (fun r => { r with matchLocked := true, matchedWith := some rid, pendingMatchWith := none })
        (db.colOf role.other) := by
  simp only [P2.confirmApply]
  rw [DB.colOf_setCol_same, DB.colOf_setCol_other]

theorem confirmApply_lockPair_colOf_same (db : DB) (role : Role) (rid orid : String) :
    (P2.confirmApply db role rid orid .lockPair).1.colOf role =
      updateFirst (fun r => r.requestId == rid)
        (fun r => { r with matchLocked := true, matchedWith := some orid, pendingMatchWith := none })
        (db.colOf role) := by
  simp only [P2.confirmApply]
  rw [DB.colOf_setCol_other_same, DB.colOf_setCol_same]

/-- C9 (amended): the lock is not a conditional write.  The handler is
read-then-write: one snapshot read decides, and the lock writes are
keyed only by `requestId` (first conjunct).  When the loser's attempt is
handled after the winner's write, its fresh read does observe the lock
and it is answered "Already matched" with no state change (second
conjunct) — but a read taken before the winner's write decides lock as
well and its write proceeds regardless (see the counterexample). -/
theorem c9_lock_read_then_write :
    (∀ (db : DB) (role : Role) (rid orid : String) (uid : Nat),
      P2.handleUserMatchConfirm db role rid orid uid =
        P2.confirmApply db role rid orid (P2.confirmDecide db role rid orid uid)) ∧
    (∀ (db : DB) (role : Role) (rid orid : String) (uid2 : Nat) (Y : Req),
      findReq (db.colOf role.other) orid = some Y → Y.userId = uid2 →
      ∀ uid : Nat, P2.confirmDecide db role rid orid uid = .lockPair →
      P2.handleUserMatchConfirm (P2.confirmApply db role rid orid .lockPair).1
          role.other orid rid uid2 =
        ((P2.confirmApply db role rid orid .lockPair).1, Reply.alreadyMatched)) := by
  constructor
  · intro db role rid orid uid
    rfl
  · intro db role rid orid uid2 Y hY hu uid hd
    obtain ⟨X, Y2, hX, hY2, hXs, hYs, hXl, hYl⟩ :=
      confirmDecide_lockPair_elim db role rid orid uid hd
    rw [hY] at hY2
    cases hY2
    have hmy : findReq ((P2.confirmApply db role rid orid .lockPair).1.colOf role.other)
        orid = some { Y with matchLocked := true, matchedWith := some rid, pendingMatchWith := none } := by
      rw [confirmApply_lockPair_colOf_other,
        P2.findReq_updateFirst _ (fun r => by rfl) orid, hY]
      rfl
    have hot : findReq ((P2.confirmApply db role rid orid .lockPair).1.colOf
        role.other.other) rid = some { X with matchLocked := true, matchedWith := some orid, pendingMatchWith := none } := by
      rw [Role.other_other, confirmApply_lockPair_colOf_same,
        P2.findReq_updateFirst _ (fun r => by rfl) rid, hX]
      rfl
    unfold P2.handleUserMatchConfirm P2.confirmDecide
    rw [hmy, hot]
    simp [P2.confirmApply, hu, hXs, hYs]

/-- Two fresh Approved, unlocked requests about to confirm each other. -/
def c9db : DB :=
  ⟨[exReq "s1" 1 .sender .Approved false none none],
   [exReq "t1" 2 .traveler .Approved false none none]⟩

/-- C9 counterexample: interleaving the two handlers at store-call
boundaries (the spec's own concurrency model), both first confirmations
read the same empty-pending snapshot and write, leaving a mutual-pending
pair; then both second confirmations read that same snapshot, both
decide lock, and both writes proceed and answer "Match confirmed" — the
loser is never told "already matched", although a fresh read after the
winner's write (final conjunct) would have refused it.  The claimed
conditional update at write time does not exist. -/
theorem c9_counterexample :
    P2.confirmDecide c9db .sender "s1" "t1" 1 = P2.ConfirmDecision.firstConfirm ∧
    P2.confirmDecide c9db .traveler "t1" "s1" 2 = P2.ConfirmDecision.firstConfirm ∧
    (P2.confirmDecide
        ((P2.confirmApply
          ((P2.confirmApply c9db .sender "s1" "t1" P2.ConfirmDecision.firstConfirm).1)
          .traveler "t1" "s1" P2.ConfirmDecision.firstConfirm).1)
        .sender "s1" "t1" 1 = P2.ConfirmDecision.lockPair ∧
     P2.confirmDecide
        ((P2.confirmApply
          ((P2.confirmApply c9db .sender "s1" "t1" P2.ConfirmDecision.firstConfirm).1)
          .traveler "t1" "s1" P2.ConfirmDecision.firstConfirm).1)
        .traveler "t1" "s1" 2 = P2.ConfirmDecision.lockPair ∧
     (P2.confirmApply
        ((P2.confirmApply
          ((P2.confirmApply c9db .sender "s1" "t1" P2.ConfirmDecision.firstConfirm).1)
          .traveler "t1" "s1" P2.ConfirmDecision.firstConfirm).1)
        .sender "s1" "t1" P2.ConfirmDecision.lockPair).2 = Reply.matchConfirmed ∧
     (P2.confirmApply
        (P2.confirmApply
          ((P2.confirmApply
            ((P2.confirmApply c9db .sender "s1" "t1" P2.ConfirmDecision.firstConfirm).1)
            .traveler "t1" "s1" P2.ConfirmDecision.firstConfirm).1)
          .sender "s1" "t1" P2.ConfirmDecision.lockPair).1
        .traveler "t1" "s1" P2.ConfirmDecision.lockPair).2 = Reply.matchConfirmed ∧
     P2.confirmDecide
        ((P2.confirmApply
          ((P2.confirmApply
            ((P2.confirmApply c9db .sender "s1" "t1" P2.ConfirmDecision.firstConfirm).1)
            .traveler "t1" "s1" P2.ConfirmDecision.firstConfirm).1)
          .sender "s1" "t1" P2.ConfirmDecision.lockPair).1)
        .traveler "t1" "s1" 2 = P2.ConfirmDecision.fail Reply.alreadyMatched) := by
  decide

/-- A locked pair reachable by a sequential double confirmation. -/
def c9db2 : DB :=
  ⟨[exReq "s1" 1 .sender .Approved false (some "t1") none],
   [exReq "t1" 2 .traveler .Approved false none none]⟩

theorem c9_lock_read_then_write_witness :
    P2.handleUserMatchConfirm
        (P2.confirmApply c9db2 .traveler "t1" "s1" P2.ConfirmDecision.lockPair).1
        Role.traveler.other "s1" "t1" 1 =
      ((P2.confirmApply c9db2 .traveler "t1" "s1" P2.ConfirmDecision.lockPair).1,
       Reply.alreadyMatched) :=
  c9_lock_read_then_write.2 c9db2 .traveler "t1" "s1" 1
    (exReq "s1" 1 .sender .Approved false (some "t1") none)
    (by decide) rfl 2 (by decide)

/-- C10: the weight step of the sender submission flow.  The first
unsigned decimal anywhere in the text is extracted ("-3" parses as 3,
"abc 5.5 xyz" as 5.5, a digitless text as nothing); no number or a
non-positive number re-prompts with the session intact, a number above
10 kg destroys the session, and otherwise the weight is stored and the
flow advances to the category step. -/
theorem c10_weight_step :
    extractFirstNumber "-3" = some (mkRat 3 1) ∧
    extractFirstNumber "abc 5.5 xyz" = some (mkRat 11 2) ∧
    extractFirstNumber "no digits" = none ∧
    (∀ (today : Int) (newReqId : String) (sess : P2.SenderSession) (text : String),
      sess.step = "package_weight" →
      (extractFirstNumber text = none →
        P2.handleSenderTextStep today newReqId sess text =
          (some sess, [Msg.invalidWeightFormat])) ∧
      (∀ w : ℚ, extractFirstNumber text = some w →
        (w ≤ 0 →
          P2.handleSenderTextStep today newReqId sess text =
            (some sess, [Msg.positiveWeightRequired])) ∧
        ((10 : ℚ) < w →
          P2.handleSenderTextStep today newReqId sess text =
            (none, [Msg.weightTooHeavy])) ∧
        (¬ w ≤ 0 → ¬ (10 : ℚ) < w →
          P2.handleSenderTextStep today newReqId sess text =
            (some { sess with data := { sess.data with weight := some w }, step := "package_category" }, [Msg.chooseCategory])))) := by
  refine ⟨by decide, by decide, by decide, ?_⟩
  intro today newReqId sess text hstep
  constructor
  · intro hnone
    simp [P2.handleSenderTextStep, hstep, hnone]
  · intro w hw
    refine ⟨?_, ?_, ?_⟩
    · intro hle
      simp [P2.handleSenderTextStep, hstep, hw, hle]
    · intro hgt
      have hpos : ¬ w ≤ 0 := by
        intro hle
        exact absurd (lt_of_le_of_lt hle (by norm_num)) (not_lt.mpr (le_of_lt hgt))
      simp [P2.handleSenderTextStep, hstep, hw, hpos, hgt]
    · intro h1 h2
      simp [P2.handleSenderTextStep, hstep, hw, h1, h2]

/-- A sender session parked at the weight step. -/
def c10sess : P2.SenderSession := ⟨"package_weight", P2.SenderData.empty, "", "", false⟩

theorem c10_weight_step_witness :
    P2.handleSenderTextStep 0 "rid" c10sess "-3" =
      (some { c10sess with data := { P2.SenderData.empty with weight := some (mkRat 3 1) }, step := "package_category" }, [Msg.chooseCategory]) :=
  ((c10_weight_step.2.2.2 0 "rid" c10sess "-3" rfl).2 (mkRat 3 1) (by decide)).2.2
    (by decide) (by decide)

/-- A suspended user with an in-progress traveler submission parked at
the departure-airport step. -/
def c8sess : BotJs.TravelerSession := ⟨"departure_airport", BotJs.TravelerData.empty, "", ""⟩

def c8state : BotJs.BotState :=
  { sessions := [(5, BotJs.Session.traveler c8sess)], adminAuth := [],
    suspended := [5], db := ⟨[], []⟩ }

def c8cfg : BotJs.Cfg := ⟨999, 777, "1234"⟩

/-- C8: the suspension gate is incomplete.  For a suspended user with an
in-progress traveler submission, one inbound text makes the
first-registered message listener — which has no suspension check —
advance the submission flow (the departure airport is stored and the
step moves on), while the two later, guarded listeners each answer the
standard suspension notice.  The claim that no in-progress flow advances
for a suspended user fails on this input. -/
theorem c8_suspension_gate_bypassed :
    BotJs.isUserSuspended c8state 5 = true ∧
    (BotJs.dispatchMessage c8cfg "rid" c8state 5 5 "Delhi").2 =
      [Msg.enterDepartureCountry, Msg.suspendedNotice, Msg.suspendedNotice] ∧
    BotJs.getSession (BotJs.dispatchMessage c8cfg "rid" c8state 5 5 "Delhi").1 5 =
      some (BotJs.Session.traveler
        { c8sess with data := { BotJs.TravelerData.empty with departure := "Delhi" }, step := "departure_country" }) := by
  decide

end AirDlivers
